import Mathlib

set_option maxHeartbeats 1000000

/-! Verification of a Bitrix24 AI-agent webhook pipeline. We give a shallow
embedding of the event normalizer, the agent routing with its fallbacks, the
working-hours gate, the knowledge-context assembly, the tool executor, the
retrying chat-completion driver and the inbound-only session rule, and prove
theorems checking the specification claims against the embedded code.
Python dictionaries are embedded as association lists with replace-on-insert
semantics, raising code as Except-valued functions, and the external
collaborators (database, platform client, inference API) as oracles supplied
as arguments. -/

deriving instance DecidableEq for Except

/-- Lookup in an association list (Python dict get). -/
def lookupKV {α : Type} (l : List (String × α)) (k : String) : Option α :=
  match l with
  | [] => none
  | (k1, v) :: rest => if k1 = k then some v else lookupKV rest k

/-- Insert into an association list, replacing an existing binding
(Python dict item assignment). -/
def insertKV {α : Type} (l : List (String × α)) (k : String) (v : α) :
    List (String × α) :=
  match l with
  | [] => [(k, v)]
  | (k1, v1) :: rest =>
    if k1 = k then (k1, v) :: rest else (k1, v1) :: insertKV rest k v

/-- Python truthiness of an optional string (None and the empty string are
falsy). -/
def truthyOptStr : Option String → Bool
  | none => false
  | some s => s != ""

/-- Python truthiness of an optional integer (None and 0 are falsy). -/
def truthyOptInt : Option Int → Bool
  | none => false
  | some n => n != 0

/-- A word character as matched by the regex class w in the source patterns
(the keys folded by the normalizer are ASCII identifiers). -/
def isWordChar (c : Char) : Bool := c.isAlphanum || c == '_'

/-- Strip a literal character-list head from a key; none when the key does
not start with the literal. -/
def dropLit : List Char → List Char → Option (List Char)
  | [], cs => some cs
  | _ :: _, [] => none
  | p :: ps, c :: cs => if c == p then dropLit ps cs else none

/-- Embeds re.match of a pattern literal-bracket-group-bracket against a key:
after the literal, a maximal nonempty run of word characters must be followed
by a closing bracket; anything after that bracket is ignored because re.match
only anchors at the start. Returns the captured group. -/
def matchGroup (lit : String) (key : String) : Option String :=
  match dropLit lit.toList key.toList with
  | none => none
  | some rest =>
    let run := rest.takeWhile isWordChar
    if run.isEmpty then none
    else
      match rest.dropWhile isWordChar with
      | ']' :: _ => some (String.mk run)
      | _ => none

/-- The canonical event envelope produced by the normalizer: event name,
the data PARAMS section, the data USER section (present only when some USER
key was seen, as in the source), and the auth section. -/
structure Envelope where
  event : Option String
  params : List (String × String)
  user : Option (List (String × String))
  auth : List (String × String)
deriving Repr, DecidableEq

/-- One step of the normalizer loop body in parse_bitrix_form_data: try the
data-PARAMS pattern, then the data-USER pattern, then the auth pattern, and
drop the key when none matches. -/
def foldFormEntry (env : Envelope) (kv : String × String) : Envelope :=
  match matchGroup "data[PARAMS][" kv.1 with
  | some name => { env with params := insertKV env.params name kv.2 }
  | none =>
    match matchGroup "data[USER][" kv.1 with
    | some name =>
      { env with user := some (insertKV (env.user.getD []) name kv.2) }
    | none =>
      match matchGroup "auth[" kv.1 with
      | some name => { env with auth := insertKV env.auth name kv.2 }
      | none => env

/-- Embedding of parse_bitrix_form_data: the event key is copied to the
event field and every entry is folded through the three bracket patterns. -/
def parse_bitrix_form_data (form : List (String × String)) : Envelope :=
  form.foldl foldFormEntry
    { event := lookupKV form "event", params := [], user := none, auth := [] }

/-- Token usage normalized by the chat-completion driver. -/
structure Usage where
  prompt_tokens : Nat
  completion_tokens : Nat
  total_tokens : Nat
deriving Repr, DecidableEq

/-- A JSON scalar argument value handed to the tool executor. -/
inductive Arg
  | str (s : String)
  | int (n : Int)
deriving Repr, DecidableEq

/-- Python truthiness of an optional argument value. -/
def truthyArg : Option Arg → Bool
  | none => false
  | some (.str s) => s != ""
  | some (.int n) => n != 0

/-- A structured tool call as it arrives from the inference API: the
argumentsRaw field is the outcome of json.loads on the arguments text
(malformed JSON is an error and is raised inside the retry loop). -/
structure RawToolCall where
  id : String
  name : String
  argumentsRaw : Except String (List (String × Arg))
deriving Repr

/-- One successful response of the underlying inference call, before the
driver parses the tool-call arguments. -/
structure RawResponse where
  content : Option String
  tool_calls : List RawToolCall
  usage : Usage
deriving Repr

/-- A parsed tool-call request as returned by the driver. -/
structure ToolCallReq where
  id : String
  function : String
  arguments : List (String × Arg)
deriving Repr, DecidableEq

/-- The result dictionary returned by chat_completion on success. -/
structure CCResult where
  content : Option String
  tool_calls : List ToolCallReq
  usage : Usage
deriving Repr, DecidableEq

/-- Parse the arguments JSON of every tool call (json.loads in the loop
body); the first malformed argument text raises. -/
def buildToolCalls : List RawToolCall → Except String (List ToolCallReq)
  | [] => .ok []
  | tc :: rest => do
    let args ← tc.argumentsRaw
    let others ← buildToolCalls rest
    pure (⟨tc.id, tc.name, args⟩ :: others)

/-- Build the result dictionary from a raw response (the body of the try
block after the API call returns). -/
def buildCCResult (raw : RawResponse) : Except String CCResult := do
  let tcs ← buildToolCalls raw.tool_calls
  pure ⟨raw.content, tcs, raw.usage⟩

/-- Possible outcomes of chat_completion: the implicit None return when the
while loop body never runs, a raised terminal error, or a success result. -/
inductive CCOutcome
  | retNone
  | raised (msg : String)
  | success (r : CCResult)
deriving Repr, DecidableEq

/-- The while loop of chat_completion, at a given attempt counter. The
attempts oracle gives the outcome of the k-th underlying API call. On an
exception the attempt counter is incremented and, once it reaches
max_retries, a terminal error carrying the last failure message is raised;
otherwise the loop retries immediately. -/
def chat_completion_from (attempts : Nat → Except String RawResponse)
    (max_retries : Int) (attempt : Nat) : CCOutcome :=
  if (attempt : Int) < max_retries then
    match attempts attempt with
    | .ok raw =>
      match buildCCResult raw with
      | .ok r => .success r
      | .error e =>
        if (attempt : Int) + 1 ≥ max_retries then
          .raised ("OpenAI API failed: " ++ e)
        else chat_completion_from attempts max_retries (attempt + 1)
    | .error e =>
      if (attempt : Int) + 1 ≥ max_retries then
        .raised ("OpenAI API failed: " ++ e)
      else chat_completion_from attempts max_retries (attempt + 1)
  else .retNone
termination_by (max_retries - attempt).toNat
decreasing_by all_goals omega

/-- Embedding of OpenAIClient.chat_completion: run the retry loop from
attempt zero. -/
def chat_completion (attempts : Nat → Except String RawResponse)
    (max_retries : Int) : CCOutcome :=
  chat_completion_from attempts max_retries 0

/-- Python str.join with the given separator: the parts in order with the
separator between consecutive parts. -/
def str_join (sep : String) : List String → String
  | [] => ""
  | [p] => p
  | p :: q :: rest => p ++ sep ++ str_join sep (q :: rest)

/-- Stable insertion into a list ordered by the given comparison (used to
embed the SQL ORDER BY of the persistence queries). -/
def insertSorted {α : Type} (le : α → α → Bool) (a : α) : List α → List α
  | [] => [a]
  | b :: l => if le a b then a :: b :: l else b :: insertSorted le a l

/-- Stable insertion sort by the given comparison. -/
def sortBy {α : Type} (le : α → α → Bool) : List α → List α
  | [] => []
  | a :: l => insertSorted le a (sortBy le l)

/-- A weekday schedule entry, the nested from-to mapping stored per weekday
in the working-hours schedule. -/
structure ScheduleEntry where
  time_from : String
  time_to : String
deriving Repr, DecidableEq

/-- The agent-local current moment, as the code observes it through
strftime: the lowercased full weekday name and the zero-padded HH:MM
clock string. -/
structure LocalTime where
  weekday : String
  hhmm : String
deriving Repr, DecidableEq

/-- An agent configuration record as read from the agents table. -/
structure Agent where
  id : Nat
  domain : String
  name : String
  description : Option String
  system_prompt : Option String
  bot_id : Option Int
  open_line_id : Option String
  bot_type : String
  is_active : Bool
  working_hours_enabled : Bool
  working_hours_schedule : List (String × ScheduleEntry)
  timezone : String
  inbound_only : Bool
  max_retries : Int
  enabled_tools : List String
  created_at : Int
deriving Repr, DecidableEq

/-- Embedding of MessageProcessor.is_working_hours, with the agent-local
current time passed explicitly. Disabled means always within hours; a
weekday absent from the schedule is a non-working day; otherwise the
zero-padded clock string is compared lexicographically against the bounds,
exactly as the source compares HH:MM strings. -/
def is_working_hours (agent : Agent) (now : LocalTime) : Bool :=
  if !agent.working_hours_enabled then true
  else
    match lookupKV agent.working_hours_schedule now.weekday with
    | none => false
    | some day =>
      decide (day.time_from ≤ now.hhmm) && decide (now.hhmm ≤ day.time_to)

/-- The weekday abbreviation table used when formatting working hours. -/
def days_short : List (String × String) :=
  [("monday", "Mon"), ("tuesday", "Tue"), ("wednesday", "Wed"),
   ("thursday", "Thu"), ("friday", "Fri"), ("saturday", "Sat"),
   ("sunday", "Sun")]

/-- Embedding of MessageProcessor._format_working_hours. -/
def format_working_hours (agent : Agent) : String :=
  if !agent.working_hours_enabled then "24/7"
  else if agent.working_hours_schedule.isEmpty then "24/7"
  else
    str_join ", " (agent.working_hours_schedule.map fun p =>
      ((lookupKV days_short p.1).getD p.1) ++ " " ++ p.2.time_from ++ "-" ++
        p.2.time_to)

/-- The canned notice sent when a message arrives outside working hours. -/
def working_hours_notice (agent : Agent) : String :=
  "Thank you for reaching out! Our working hours are: " ++
    format_working_hours agent ++ ". We will respond during business hours."

/-- One stored knowledge-base chunk row. -/
structure RagDoc where
  filename : String
  content : String
  chunk_index : Nat
deriving Repr, DecidableEq

/-- The formatted text of one chunk, bracketed filename tag then content. -/
def doc_text (d : RagDoc) : String :=
  "[" ++ d.filename ++ "]\n" ++ d.content ++ "\n"

/-- The ORDER BY filename, chunk_index ordering of get_rag_documents. -/
def ragLe (a b : RagDoc) : Bool :=
  if a.filename = b.filename then decide (a.chunk_index ≤ b.chunk_index)
  else decide (a.filename < b.filename)

/-- Embedding of Database.get_rag_documents over the stored chunk rows:
all chunks of the agent ordered by filename then chunk index. -/
def get_rag_documents (docs : List RagDoc) : List RagDoc :=
  sortBy ragLe docs

/-- The accumulation loop of get_rag_context: walk the ordered chunks,
keeping a running character count. A chunk whose addition would exceed the
budget stops the loop; it is truncated to the remaining budget with an
ellipsis when more than 100 characters remain, else dropped. Returns the
collected parts and whether a truncated part was emitted. -/
def rag_loop (max_length : Nat) : List RagDoc → Nat → List String × Bool
  | [], _ => ([], false)
  | d :: rest, current_length =>
    let t := doc_text d
    if current_length + t.length > max_length then
      let remaining := max_length - current_length
      if remaining > 100 then ([String.mk (t.toList.take remaining) ++ "..."], true)
      else ([], false)
    else
      let p := rag_loop max_length rest (current_length + t.length)
      (t :: p.1, p.2)

/-- Embedding of Database.get_rag_context: None when the agent has no
chunks, else the collected parts joined with a newline, or None when no
part survived. -/
def get_rag_context (docs : List RagDoc) (max_length : Nat) : Option String :=
  let sorted := get_rag_documents docs
  if sorted.isEmpty then none
  else
    let p := rag_loop max_length sorted 0
    if p.1.isEmpty then none else some (str_join "\n" p.1)

/-- A CRM field value as assembled by the executor: a plain argument value,
the Python None placed when a required-name get misses, or the
work-typed value list wrapped around phone and email values. -/
inductive FieldVal
  | plain (a : Arg)
  | null
  | workList (a : Arg)
deriving Repr, DecidableEq

/-- Render an argument value inside a formatted message, as a Python
f-string renders it. -/
def argToString : Arg → String
  | .str s => s
  | .int n => toString n

/-- Oracle for the outward platform client: each method the executor can
invoke, returning either a result or the message of a raised exception. -/
structure BitrixClient where
  crm_lead_add : List (String × FieldVal) → Except String Int
  crm_lead_get : Arg → Except String Int
  crm_lead_update : Arg → List (String × FieldVal) → Except String Int
  crm_deal_add : List (String × FieldVal) → Except String Int
  crm_deal_get : Arg → Except String Int
  crm_deal_update : Arg → List (String × FieldVal) → Except String Int
  crm_contact_add : List (String × FieldVal) → Except String Int
  crm_contact_get : Arg → Except String Int
  openlines_operator_transfer : String → Arg → Except String Int
  openlines_operator_finish : String → Except String Int

/-- The uniform result dictionary of the tool executor; absent keys are
none. -/
structure ToolResult where
  success : Bool
  error : Option String := none
  lead_id : Option Int := none
  deal_id : Option Int := none
  contact_id : Option Int := none
  data : Option Int := none
  message : Option String := none
  date : Option String := none
  time : Option String := none
  datetime : Option String := none
  timezone : Option String := none
deriving Repr, DecidableEq

/-- The failure dictionary produced by the catch-all except branch and by
the guard branches of the executor. -/
def mkToolError (m : String) : ToolResult := { success := false, error := some m }

/-- Python subscript access on the arguments mapping: a missing key raises
KeyError, which the catch-all except turns into a failure result. -/
def getItemArg (args : List (String × Arg)) (key : String) : Except String Arg :=
  match lookupKV args key with
  | some v => .ok v
  | none => .error ("KeyError: " ++ key)

/-- A get on the arguments mapping rendered as a field value (None when
missing). -/
def optField (args : List (String × Arg)) (key : String) : FieldVal :=
  match lookupKV args key with
  | some a => .plain a
  | none => .null

/-- Append the truthy-guarded optional fields shared by the CRM add and
update branches: the given key is added (wrapped when requested) only when
the argument is present and truthy. -/
def addOptField (args : List (String × Arg)) (argKey fieldKey : String)
    (wrap : Bool) (fields : List (String × FieldVal)) :
    List (String × FieldVal) :=
  if truthyArg (lookupKV args argKey) then
    fields ++ [(fieldKey,
      if wrap then FieldVal.workList ((lookupKV args argKey).getD (.str ""))
      else FieldVal.plain ((lookupKV args argKey).getD (.str "")))]
  else fields

/-- The field dictionary built by the crm_lead_add branch. -/
def crm_lead_add_fields (args : List (String × Arg)) :
    List (String × FieldVal) :=
  addOptField args "comments" "COMMENTS" false
    (addOptField args "email" "EMAIL" true
      (addOptField args "phone" "PHONE" true
        [("TITLE", optField args "name"), ("NAME", optField args "name")]))

/-- The field dictionary built by the crm_lead_update branch. -/
def crm_lead_update_fields (args : List (String × Arg)) :
    List (String × FieldVal) :=
  addOptField args "comments" "COMMENTS" false
    (addOptField args "status_id" "STATUS_ID" false
      (addOptField args "email" "EMAIL" true
        (addOptField args "phone" "PHONE" true
          (if truthyArg (lookupKV args "name") then
            [("NAME", FieldVal.plain ((lookupKV args "name").getD (.str ""))),
             ("TITLE", FieldVal.plain ((lookupKV args "name").getD (.str "")))]
          else []))))

/-- The field dictionary built by the crm_deal_add branch. -/
def crm_deal_add_fields (args : List (String × Arg)) :
    List (String × FieldVal) :=
  addOptField args "comments" "COMMENTS" false
    (addOptField args "opportunity" "OPPORTUNITY" false
      (addOptField args "contact_id" "CONTACT_ID" false
        [("TITLE", optField args "title")]))

/-- The field dictionary built by the crm_deal_update branch. -/
def crm_deal_update_fields (args : List (String × Arg)) :
    List (String × FieldVal) :=
  addOptField args "comments" "COMMENTS" false
    (addOptField args "stage_id" "STAGE_ID" false
      (addOptField args "opportunity" "OPPORTUNITY" false
        (addOptField args "title" "TITLE" false [])))

/-- The field dictionary built by the crm_contact_add branch. -/
def crm_contact_add_fields (args : List (String × Arg)) :
    List (String × FieldVal) :=
  addOptField args "email" "EMAIL" true
    (addOptField args "phone" "PHONE" true
      (addOptField args "last_name" "LAST_NAME" false
        [("NAME", optField args "name")]))

/-- Strip the literal chat tag from a tagged dialog identifier, as the
chat-control branches do before calling the platform. -/
def stripChatTag (s : String) : String :=
  if s.startsWith "chat" then s.drop 4 else s

/-- Embedding of execute_tool. The whole dispatch sits inside one
try-except, so every raised exception (a failing platform call, a missing
required argument) becomes a failure dictionary and the function itself
never raises: its return type carries no error case. The second component
records which platform-client methods were invoked. The clock oracle stands
for the ambient timezone-aware current time used by get_todays_date (an
unknown timezone name raises there). -/
def execute_tool (tool_name : String) (arguments : List (String × Arg))
    (bitrix_client : BitrixClient) (chat_id : Option String)
    (agent_timezone : String)
    (clock : String → Except String (String × String × String)) :
    ToolResult × List String :=
  if tool_name = "crm_lead_add" then
    match bitrix_client.crm_lead_add (crm_lead_add_fields arguments) with
    | .ok result =>
      ({ success := true, lead_id := some result,
         message := some ("Lead created (ID: " ++ toString result ++ ")") },
       ["crm_lead_add"])
    | .error e => (mkToolError e, ["crm_lead_add"])
  else if tool_name = "crm_lead_get" then
    match getItemArg arguments "lead_id" with
    | .error e => (mkToolError e, [])
    | .ok lid =>
      match bitrix_client.crm_lead_get lid with
      | .ok result => ({ success := true, data := some result }, ["crm_lead_get"])
      | .error e => (mkToolError e, ["crm_lead_get"])
  else if tool_name = "crm_lead_update" then
    match getItemArg arguments "lead_id" with
    | .error e => (mkToolError e, [])
    | .ok lid =>
      match bitrix_client.crm_lead_update lid (crm_lead_update_fields arguments) with
      | .ok _ =>
        ({ success := true,
           message := some ("Lead updated (ID: " ++ argToString lid ++ ")") },
         ["crm_lead_update"])
      | .error e => (mkToolError e, ["crm_lead_update"])
  else if tool_name = "crm_deal_add" then
    match bitrix_client.crm_deal_add (crm_deal_add_fields arguments) with
    | .ok result =>
      ({ success := true, deal_id := some result,
         message := some ("Deal created (ID: " ++ toString result ++ ")") },
       ["crm_deal_add"])
    | .error e => (mkToolError e, ["crm_deal_add"])
  else if tool_name = "crm_deal_get" then
    match getItemArg arguments "deal_id" with
    | .error e => (mkToolError e, [])
    | .ok did =>
      match bitrix_client.crm_deal_get did with
      | .ok result => ({ success := true, data := some result }, ["crm_deal_get"])
      | .error e => (mkToolError e, ["crm_deal_get"])
  else if tool_name = "crm_deal_update" then
    match getItemArg arguments "deal_id" with
    | .error e => (mkToolError e, [])
    | .ok did =>
      match bitrix_client.crm_deal_update did (crm_deal_update_fields arguments) with
      | .ok _ =>
        ({ success := true,
           message := some ("Deal updated (ID: " ++ argToString did ++ ")") },
         ["crm_deal_update"])
      | .error e => (mkToolError e, ["crm_deal_update"])
  else if tool_name = "crm_contact_add" then
    match bitrix_client.crm_contact_add (crm_contact_add_fields arguments) with
    | .ok result =>
      ({ success := true, contact_id := some result,
         message := some ("Contact created (ID: " ++ toString result ++ ")") },
       ["crm_contact_add"])
    | .error e => (mkToolError e, ["crm_contact_add"])
  else if tool_name = "crm_contact_get" then
    match getItemArg arguments "contact_id" with
    | .error e => (mkToolError e, [])
    | .ok cid =>
      match bitrix_client.crm_contact_get cid with
      | .ok result => ({ success := true, data := some result }, ["crm_contact_get"])
      | .error e => (mkToolError e, ["crm_contact_get"])
  else if tool_name = "transfer_chat_to_user" then
    if !truthyOptStr chat_id then (mkToolError "chat_id required", [])
    else
      let numeric_chat_id := stripChatTag (chat_id.getD "")
      match getItemArg arguments "user_id" with
      | .error e => (mkToolError e, [])
      | .ok uid =>
        match bitrix_client.openlines_operator_transfer numeric_chat_id uid with
        | .ok _ =>
          ({ success := true, message := some "Chat transferred to operator" },
           ["openlines_operator_transfer"])
        | .error e => (mkToolError e, ["openlines_operator_transfer"])
  else if tool_name = "disconnect_agent_from_chat" then
    if !truthyOptStr chat_id then (mkToolError "chat_id required", [])
    else
      let numeric_chat_id := stripChatTag (chat_id.getD "")
      match bitrix_client.openlines_operator_finish numeric_chat_id with
      | .ok _ =>
        ({ success := true, message := some "Agent disconnected from chat" },
         ["openlines_operator_finish"])
      | .error e => (mkToolError e, ["openlines_operator_finish"])
  else if tool_name = "get_todays_date" then
    match clock agent_timezone with
    | .ok parts =>
      ({ success := true, date := some parts.1, time := some parts.2.1,
         datetime := some parts.2.2, timezone := some agent_timezone }, [])
    | .error e => (mkToolError e, [])
  else (mkToolError ("Unknown function: " ++ tool_name), [])

/-- The names of the tools in the registry catalog, in catalog order. -/
def tools_definition_names : List String :=
  ["crm_lead_add", "crm_deal_add", "crm_contact_add", "crm_lead_get",
   "crm_deal_get", "crm_contact_get", "transfer_chat_to_user",
   "disconnect_agent_from_chat", "get_todays_date", "crm_lead_update",
   "crm_deal_update"]

/-- Embedding of get_enabled_tools, keeping only the catalog names that the
agent enabled (represented by their names). -/
def get_enabled_tools (tool_names : List String) : List String :=
  if tool_names.isEmpty then []
  else tools_definition_names.filter (fun n => tool_names.contains n)

/-- The fixed behavioral instruction block appended to every system
prompt. -/
def instruction_block : String :=
  "\n\nInstructions:\n- Answer briefly and to the point\n- Use available functions to work with CRM\n- Be polite and professional\n- If you don\x27t know the answer - say so honestly\n"

/-- Embedding of OpenAIClient.build_system_prompt: custom prompt trimmed,
else a description-derived default, else a generic fallback; then the
current-time line, the delimited knowledge-base section when present, and
the instruction block, joined with newlines. -/
def build_system_prompt (custom_system_prompt : Option String)
    (agent_description : Option String) (current_time_info : Option String)
    (rag_context : Option String) : String :=
  let parts1 :=
    [if truthyOptStr custom_system_prompt then (custom_system_prompt.getD "").trim
     else if truthyOptStr agent_description then
       "You are an AI assistant in Bitrix24. " ++ agent_description.getD ""
     else "You are an AI assistant in Bitrix24."]
  let parts2 :=
    if truthyOptStr current_time_info then
      parts1 ++ ["\nCurrent date and time: " ++ current_time_info.getD ""]
    else parts1
  let parts3 :=
    if truthyOptStr rag_context then
      parts2 ++ ["\n\n--- KNOWLEDGE BASE ---\n" ++ rag_context.getD "" ++
        "\n--- END KNOWLEDGE BASE ---"]
    else parts2
  str_join "\n" (parts3 ++ [instruction_block])

/-- One stored message row of a chat session. -/
structure Msg where
  id : Nat
  author_type : String
  content : String
  is_audio : Bool
  audio_transcription : Option String
deriving Repr, DecidableEq

/-- One entry of the conversation handed to the inference call. -/
structure ChatMsg where
  role : String
  content : String
deriving Repr, DecidableEq

/-- Embedding of MessageProcessor._build_conversation: one leading system
entry, then each stored message mapped to assistant or user role, with
available voice transcriptions substituted. -/
def build_conversation (agent : Agent) (current_time : String)
    (rag_context : Option String) (messages : List Msg) : List ChatMsg :=
  let system_prompt := build_system_prompt agent.system_prompt
    agent.description (some current_time) rag_context
  ⟨"system", system_prompt⟩ :: messages.map fun m =>
    ⟨if m.author_type = "bot" then "assistant" else "user",
     if m.is_audio && truthyOptStr m.audio_transcription then
       "[Voice message]: " ++ m.audio_transcription.getD ""
     else m.content⟩

/-- The observable actions of one processing turn, in program order:
outbound sends, audit log appends, platform-client invocations made by the
tool executor, chat-row status updates, and the processed marking. -/
inductive Effect
  | sendMessage (bot_id : Option Int) (dialog_id : String) (message : String)
  | inferenceCall
  | addLog (action_type : String) (success : Bool)
  | bitrixCall (method : String)
  | updateChatStatus (status : String) (lead_id deal_id : Option Int)
  | markProcessed (ids : List Nat)
deriving Repr, DecidableEq

/-- One chat-session row. -/
structure Chat where
  id : Nat
  agent_id : Nat
  chat_id : String
  status : String
  created_lead_id : Option Int
  created_deal_id : Option Int
deriving Repr, DecidableEq

/-- Embedding of Database.update_chat_status on a chat row: the status
column is always written; the created lead and deal ids only when the
passed value is truthy. -/
def update_chat_status (chat : Chat) (status : String)
    (lead_id deal_id : Option Int) : Chat :=
  { chat with
    status := status
    created_lead_id :=
      if truthyOptInt lead_id then lead_id else chat.created_lead_id
    created_deal_id :=
      if truthyOptInt deal_id then deal_id else chat.created_deal_id }

/-- Apply one turn effect to a chat row; only status updates touch it. -/
def applyEffect (chat : Chat) : Effect → Chat
  | .updateChatStatus st lid did => update_chat_status chat st lid did
  | _ => chat

/-- Apply a whole effect trace to a chat row. -/
def applyEffects (chat : Chat) (effects : List Effect) : Chat :=
  effects.foldl applyEffect chat

/-- Embedding of the inbound-only block of process_chat_messages: when the
agent has the flag and a lead or deal creation tool call succeeded, the
chat status is set to completed with the created ids recorded, and the
bookkeeping is logged. It performs no platform-client call. -/
def inbound_only_rule (agent : Agent) (fname : String) (result : ToolResult) :
    List Effect :=
  if agent.inbound_only then
    if fname = "crm_lead_add" || fname = "crm_deal_add" then
      if result.success then
        [.updateChatStatus "completed" result.lead_id result.deal_id,
         .addLog "inbound_only_disconnect" true]
      else []
    else []
  else []

/-- The environment of one processor turn: the agent-local time, the
unprocessed rows, the stored knowledge chunks, and the oracles for the
inference attempts, the platform client and the clock. -/
structure TurnEnv where
  now : LocalTime
  now_str : String
  unprocessed : List Msg
  rag_docs : List RagDoc
  attempts : Nat → Except String RawResponse
  bitrix : BitrixClient
  clock : String → Except String (String × String × String)

/-- One iteration of the tool-call loop in process_chat_messages: execute
the tool, log the call with its success flag, then apply the inbound-only
block. Returns the result dictionary and the effects of the iteration. -/
def process_tool_call (agent : Agent) (env : TurnEnv) (chat_id : String)
    (tc : ToolCallReq) : ToolResult × List Effect :=
  let r := execute_tool tc.function tc.arguments env.bitrix (some chat_id)
    agent.timezone env.clock
  (r.1, r.2.map Effect.bitrixCall ++
    [.addLog ("tool_call_" ++ tc.function) r.1.success] ++
    inbound_only_rule agent tc.function r.1)

/-- The trailing send-and-mark steps of process_chat_messages: the reply is
sent and logged only when truthy, and the consumed rows are marked
processed. -/
def send_and_finish (agent : Agent) (chat_id : String)
    (final_message : Option String) (messages : List Msg) : List Effect :=
  (if truthyOptStr final_message then
    [.sendMessage agent.bot_id chat_id (final_message.getD ""),
     .addLog "message_sent" true]
  else []) ++ [.markProcessed (messages.map (fun m => m.id))]

/-- Embedding of MessageProcessor.process_chat_messages as the effect trace
of one turn. Outside working hours the canned notice is sent and logged and
nothing else happens. Otherwise, with unprocessed rows present, the
inference driver runs; a raised terminal error, or the None returned at a
nonpositive retry bound (on which the subscript of the response raises),
is caught by the surrounding except and logged as a processing error. On a
response with tool calls the loop executes each one, the reply text is the
model content when truthy else the composed summary; without tool calls
the reply is the content value itself, sent only when truthy. -/
def process_chat_messages (agent : Agent) (env : TurnEnv) (chat_id : String) :
    List Effect :=
  if !is_working_hours agent env.now then
    [.sendMessage agent.bot_id chat_id (working_hours_notice agent),
     .addLog "outside_working_hours" true]
  else
    let messages := env.unprocessed
    if messages.isEmpty then []
    else
      Effect.inferenceCall ::
      match chat_completion env.attempts agent.max_retries with
      | .raised _ => [.addLog "processing_error" false]
      | .retNone => [.addLog "processing_error" false]
      | .success response =>
        if !response.tool_calls.isEmpty then
          let per := response.tool_calls.map (process_tool_call agent env chat_id)
          let tool_results := per.map Prod.fst
          let final_message : Option String :=
            if truthyOptStr response.content then response.content
            else
              let successful := (tool_results.filter (fun r => r.success)).map
                (fun r => r.message.getD "OK")
              some (if !successful.isEmpty then
                "Done: " ++ str_join ", " successful
              else "Action completed.")
          (per.map Prod.snd).flatten ++
            send_and_finish agent chat_id final_message messages
        else
          send_and_finish agent chat_id response.content messages

/-- The conversation handed to the inference call by the processor turn,
built from the stored chunks and the unprocessed rows. -/
def process_conversation (agent : Agent) (env : TurnEnv) : List ChatMsg :=
  build_conversation agent env.now_str (get_rag_context env.rag_docs 4000)
    env.unprocessed

/-- A JSON scalar in a webhook response body. -/
inductive JVal
  | s (v : String)
  | null
deriving Repr, DecidableEq

/-- A webhook HTTP response: status code and flat JSON body. -/
structure HttpResponse where
  statusCode : Nat
  body : List (String × JVal)
deriving Repr, DecidableEq

/-- A 200 response with the given body, as jsonify produces by default. -/
def ok200 (body : List (String × JVal)) : HttpResponse := ⟨200, body⟩

/-- Oracle for the persistence layer as used by the webhook path; every
operation can raise, carrying the exception message. -/
structure Db where
  get_agent_by_bot_id : Int → String → Except String (Option Agent)
  get_agents : String → Except String (List Agent)
  get_agent_by_openline : String → String → Except String (Option Agent)
  get_rag_context : Nat → Nat → Except String (Option String)
  add_log : Nat → String → Except String Unit

/-- Oracle bundle for the remaining collaborators of one webhook request:
the inference attempts, the platform client used by the tool executor, the
clock, the formatted current time, and the outcomes of the typing-indicator
and outbound-send calls (both wrapped in their own swallowing try blocks in
the source). -/
structure WebTurn where
  attempts : Nat → Except String RawResponse
  bitrix : BitrixClient
  clock : String → Except String (String × String × String)
  now_str : String
  bot_typing_start : Except String Unit
  bot_send_message : Except String Unit

/-- The try body of process_with_openai in the webhook module: read the
knowledge context, build the prompt, run the retrying driver, then execute
any requested tools and compose the reply. The None returned by the driver
at a nonpositive retry bound raises on attribute access. The no-tool reply
is the content value read back from the response dictionary, which can be
None. -/
def process_with_openai_body (db : Db) (turn : WebTurn) (agent : Agent)
    (message_text : String) (chat_id : Option String) :
    Except String (Option String) := do
  let rag_context ← db.get_rag_context agent.id 4000
  let _system_prompt := build_system_prompt agent.system_prompt
    agent.description (some turn.now_str) rag_context
  let _tools := get_enabled_tools agent.enabled_tools
  let _ := message_text
  match chat_completion turn.attempts agent.max_retries with
  | .raised e => .error e
  | .retNone => .error "AttributeError: NoneType object has no attribute get"
  | .success response =>
    if !response.tool_calls.isEmpty then
      let tool_results := response.tool_calls.map fun tc =>
        (execute_tool tc.function tc.arguments turn.bitrix chat_id
          agent.timezone turn.clock).1
      if truthyOptStr response.content then pure response.content
      else
        let successful := (tool_results.filter (fun r => r.success)).map
          (fun r => r.message.getD "OK")
        pure (some (if !successful.isEmpty then
          "Done: " ++ str_join ", " successful
        else "Action completed."))
    else pure response.content

/-- Embedding of process_with_openai: any exception inside the body is
caught and turned into an error-text reply, so the webhook turn never sees
it. -/
def process_with_openai (db : Db) (turn : WebTurn) (agent : Agent)
    (message_text : String) (chat_id : Option String) : Option String :=
  match process_with_openai_body db turn agent message_text chat_id with
  | .ok s => s
  | .error e => some ("Error: " ++ e)

/-- Decimal digits of a candidate integer literal; none when empty or any
character is not a digit. -/
def digitsToNat : List Char → Option Nat
  | [] => none
  | l => go l 0
where
  go : List Char → Nat → Option Nat
    | [], acc => some acc
    | c :: rest, acc =>
      if c.isDigit then go rest (acc * 10 + (c.toNat - 48)) else none

/-- Embedding of the Python int conversion applied to the TO_USER_ID
string: an optional sign followed by decimal digits; anything else fails
the conversion. -/
def str_to_int (s : String) : Option Int :=
  match s.toList with
  | '-' :: rest => (digitsToNat rest).map (fun n => -(n : Int))
  | '+' :: rest => (digitsToNat rest).map (fun n => (n : Int))
  | l => (digitsToNat l).map (fun n => (n : Int))

/-- The bot-id coercion of handle_message_add: a falsy TO_USER_ID is left
as None, and a value that does not parse as an integer is tolerated and
also left as None. -/
def parse_bot_id (to_bot_id : Option String) : Option Int :=
  match to_bot_id with
  | none => none
  | some s => if s != "" then str_to_int s else none

/-- The agent-resolution block of handle_message_add: a truthy bot id is
looked up exactly; on a miss, the first agent of the tenant listing that is
active and carries a truthy bot id is taken as fallback. -/
def resolve_message_agent (db : Db) (domain : String)
    (bot_id_int : Option Int) : Except String (Option Agent) := do
  let direct ← if truthyOptInt bot_id_int then
      db.get_agent_by_bot_id (bot_id_int.getD 0) domain
    else pure none
  match direct with
  | some a => pure (some a)
  | none => do
    let all_agents ← db.get_agents domain
    pure (all_agents.find? fun a => a.is_active && truthyOptInt a.bot_id)

/-- The try body of handle_message_add: extract the parameters, acknowledge
missing tenant or text, resolve the agent with fallback, check activity,
run the turn with the typing and send calls swallowed, and append the audit
log (whose failure, like a failing agent lookup, escapes to the top
catch). -/
def handle_message_add_body (db : Db) (turn : WebTurn)
    (event_data : Envelope) : Except String HttpResponse := do
  let params := event_data.params
  let _dialog_id := lookupKV params "DIALOG_ID"
  let message_text := lookupKV params "MESSAGE"
  let to_bot_id := lookupKV params "TO_USER_ID"
  let chat_id := lookupKV params "CHAT_ID"
  let domain := lookupKV event_data.auth "domain"
  if !truthyOptStr domain then pure (ok200 [("status", .s "no_domain")])
  else if !truthyOptStr message_text then
    pure (ok200 [("status", .s "no_message")])
  else do
    let bot_id_int := parse_bot_id to_bot_id
    let agent_opt ← resolve_message_agent db (domain.getD "") bot_id_int
    match agent_opt with
    | none => pure (ok200 [("status", .s "agent_not_found")])
    | some agent =>
      if !agent.is_active then pure (ok200 [("status", .s "agent_inactive")])
      else do
        let _ := turn.bot_typing_start
        let _response_text := process_with_openai db turn agent
          (message_text.getD "") chat_id
        let _ := turn.bot_send_message
        let _ ← db.add_log agent.id "message_received"
        pure (ok200 [("status", .s "ok")])

/-- Embedding of handle_message_add: the catch-all except turns any raised
exception into a JSON error body with HTTP status 500. -/
def handle_message_add (db : Db) (turn : WebTurn) (event_data : Envelope) :
    HttpResponse :=
  match handle_message_add_body db turn event_data with
  | .ok r => r
  | .error e => ⟨500, [("error", .s e)]⟩

/-- Python or on two optional strings: the first when truthy, else the
second. -/
def orOptStr (a b : Option String) : Option String :=
  if truthyOptStr a then a else b

/-- The agent-resolution block of handle_openline_message: a truthy line id
is looked up exactly; on a miss, the first active agent of openline type in
the tenant listing is taken as fallback. -/
def resolve_openline_agent (db : Db) (domain : String)
    (line_id : Option String) : Except String (Option Agent) := do
  let direct ← if truthyOptStr line_id then
      db.get_agent_by_openline (line_id.getD "") domain
    else pure none
  match direct with
  | some a => pure (some a)
  | none => do
    let all_agents ← db.get_agents domain
    pure (all_agents.find? fun a => a.is_active && a.bot_type == "openline")

/-- The try body of handle_openline_message: parameter extraction with the
open-line fallbacks, agent resolution, the chat-tagged target dialog
computation, the swallowed typing and send calls, and the audit log. -/
def handle_openline_message_body (db : Db) (turn : WebTurn)
    (event_data : Envelope) : Except String HttpResponse := do
  let params := event_data.params
  let dialog_id := orOptStr (lookupKV params "DIALOG_ID")
    (lookupKV params "CHAT_ID")
  let message_text := orOptStr (lookupKV params "MESSAGE")
    (lookupKV params "MESSAGE_TEXT")
  let chat_id := lookupKV params "CHAT_ID"
  let line_id := lookupKV params "LINE_ID"
  let domain := lookupKV event_data.auth "domain"
  if !truthyOptStr domain then pure (ok200 [("status", .s "no_domain")])
  else if !truthyOptStr message_text then
    pure (ok200 [("status", .s "no_message")])
  else do
    let agent_opt ← resolve_openline_agent db (domain.getD "") line_id
    match agent_opt with
    | none => pure (ok200 [("status", .s "agent_not_found")])
    | some agent =>
      if !agent.is_active then pure (ok200 [("status", .s "agent_inactive")])
      else do
        let target_dialog_id :=
          if truthyOptStr chat_id && !(chat_id.getD "").startsWith "chat" then
            some ("chat" ++ chat_id.getD "")
          else orOptStr dialog_id chat_id
        let _ := turn.bot_typing_start
        let _response_text := process_with_openai db turn agent
          (message_text.getD "") target_dialog_id
        let _ := turn.bot_send_message
        let _ ← db.add_log agent.id "openline_message"
        pure (ok200 [("status", .s "ok")])

/-- Embedding of handle_openline_message with its catch-all except. -/
def handle_openline_message (db : Db) (turn : WebTurn)
    (event_data : Envelope) : HttpResponse :=
  match handle_openline_message_body db turn event_data with
  | .ok r => r
  | .error e => ⟨500, [("error", .s e)]⟩

/-- Embedding of the event dispatch of bot_webhook on a parsed form body:
the internal-message event runs the message turn, the open-line events run
the open-line turn, the lifecycle events are acknowledged as no-ops, and
every other event name is acknowledged with an ok status echoing the
literal event value. -/
def bot_webhook (db : Db) (turn : WebTurn)
    (form : List (String × String)) : HttpResponse :=
  let event_data := parse_bitrix_form_data form
  let event_type := event_data.event
  if event_type = some "ONIMBOTMESSAGEADD" then handle_message_add db turn event_data
  else if event_type = some "ONIMBOTJOINCHAT" then ok200 [("status", .s "ok")]
  else if event_type = some "ONIMBOTWELCOMEMESSAGE" then ok200 [("status", .s "ok")]
  else if event_type = some "ONIMCONNECTORMESSAGEADD" then
    handle_openline_message db turn event_data
  else if event_type = some "ONIMOPENLINEMESSAGEADD" then
    handle_openline_message db turn event_data
  else if event_type = some "ONIMBOTMESSAGEUPDATE" then ok200 [("status", .s "ok")]
  else if event_type = some "ONIMBOTMESSAGEDELETE" then ok200 [("status", .s "ok")]
  else if event_type = some "ONIMBOTDELETE" then ok200 [("status", .s "ok")]
  else ⟨200, [("status", .s "ok"),
    ("event", match event_type with | some v => .s v | none => .null)]⟩

/-- The tenant listing of Database.get_agents over a stored agent table:
the rows of the domain ordered by creation time, newest first. -/
def get_agents_db (agents : List Agent) (domain : String) : List Agent :=
  sortBy (fun a b => decide (b.created_at ≤ a.created_at))
    (agents.filter (fun a => a.domain == domain))

/-- The exact-match lookup of Database.get_agent_by_bot_id over a stored
agent table. -/
def get_agent_by_bot_id_db (agents : List Agent) (bot_id : Int)
    (domain : String) : Option Agent :=
  agents.find? (fun a => a.bot_id == some bot_id && a.domain == domain)

/-- The exact-match lookup of Database.get_agent_by_openline over a stored
agent table. -/
def get_agent_by_openline_db (agents : List Agent) (line_id : String)
    (domain : String) : Option Agent :=
  agents.find? (fun a => a.open_line_id == some line_id && a.domain == domain)

/-- A persistence oracle backed by a concrete agent table, on which no
operation ever raises. -/
def dbOfAgents (agents : List Agent) : Db where
  get_agent_by_bot_id n d := .ok (get_agent_by_bot_id_db agents n d)
  get_agents d := .ok (get_agents_db agents d)
  get_agent_by_openline l d := .ok (get_agent_by_openline_db agents l d)
  get_rag_context _ _ := .ok none
  add_log _ _ := .ok ()

/-- The property that a string ends with an ellipsis: its last three
characters are dots. -/
def endsWithEllipsis (s : String) : Bool :=
  s.toList.reverse.take 3 == ['.', '.', '.']

/-- The value carried by the last form entry whose key matches the given
bracket pattern with the given captured group; with replace-on-insert
dictionary semantics this is the value the envelope section retains. -/
def lastMatchVal (lit : String) : List (String × String) → String →
    Option String
  | [], _ => none
  | kv :: rest, x =>
    match lastMatchVal lit rest x with
    | some v => some v
    | none => if matchGroup lit kv.1 = some x then some kv.2 else none

/-- A platform-client oracle on which every call succeeds with id 1. -/
def bitrixOk : BitrixClient where
  crm_lead_add _ := .ok 1
  crm_lead_get _ := .ok 1
  crm_lead_update _ _ := .ok 1
  crm_deal_add _ := .ok 1
  crm_deal_get _ := .ok 1
  crm_deal_update _ _ := .ok 1
  crm_contact_add _ := .ok 1
  crm_contact_get _ := .ok 1
  openlines_operator_transfer _ _ := .ok 1
  openlines_operator_finish _ := .ok 1

/-- A platform-client oracle on which every call raises with the given
message. -/
def bitrixErr (m : String) : BitrixClient where
  crm_lead_add _ := .error m
  crm_lead_get _ := .error m
  crm_lead_update _ _ := .error m
  crm_deal_add _ := .error m
  crm_deal_get _ := .error m
  crm_deal_update _ _ := .error m
  crm_contact_add _ := .error m
  crm_contact_get _ := .error m
  openlines_operator_transfer _ _ := .error m
  openlines_operator_finish _ := .error m

/-- A clock oracle with a fixed current moment. -/
def clockOk : String → Except String (String × String × String) :=
  fun _ => .ok ("2025-01-06", "10:00:00", "2025-01-06 10:00:00")

/-- A baseline agent record used by the concrete scenarios. -/
def baseAgent : Agent where
  id := 1
  domain := "acme.bitrix24.ru"
  name := "Sales"
  description := some "Sales assistant"
  system_prompt := none
  bot_id := some 42
  open_line_id := none
  bot_type := "openline"
  is_active := true
  working_hours_enabled := false
  working_hours_schedule := []
  timezone := "UTC"
  inbound_only := false
  max_retries := 3
  enabled_tools := ["crm_lead_add"]
  created_at := 100

/-- An agent that works Monday 09:00 to 18:00 only. -/
def agentMon : Agent :=
  { baseAgent with
    working_hours_enabled := true
    working_hours_schedule := [("monday", ⟨"09:00", "18:00"⟩)] }

/-- One unprocessed inbound message row. -/
def msgsOne : List Msg := [⟨1, "user", "hello", false, none⟩]

/-- A raw inference response requesting one lead creation and carrying no
text. -/
def rawLead : RawResponse where
  content := none
  tool_calls := [⟨"call_1", "crm_lead_add", .ok [("name", .str "Alice")]⟩]
  usage := ⟨10, 5, 15⟩

/-- A raw inference response carrying plain text and no tool calls. -/
def rawText : RawResponse where
  content := some "Hi there!"
  tool_calls := []
  usage := ⟨10, 5, 15⟩

/-- An attempts oracle on which every underlying call raises. -/
def attemptsErr : Nat → Except String RawResponse := fun _ => .error "timeout"

/-- An attempts oracle on which every call returns the lead request. -/
def attemptsLead : Nat → Except String RawResponse := fun _ => .ok rawLead

/-- An attempts oracle that fails once and then returns the text
response. -/
def attemptsSeq : Nat → Except String RawResponse :=
  fun k => if k = 0 then .error "connection reset" else .ok rawText

/-- A processor-turn environment placed on a Tuesday. -/
def turnEnvTue : TurnEnv where
  now := ⟨"tuesday", "10:00"⟩
  now_str := "2025-01-07 10:00:00 UTC"
  unprocessed := msgsOne
  rag_docs := []
  attempts := attemptsErr
  bitrix := bitrixOk
  clock := clockOk

/-- A processor-turn environment placed on Monday morning in which the
model requests one lead creation. -/
def turnEnvLead : TurnEnv where
  now := ⟨"monday", "10:00"⟩
  now_str := "2025-01-06 10:00:00 UTC"
  unprocessed := msgsOne
  rag_docs := []
  attempts := attemptsLead
  bitrix := bitrixOk
  clock := clockOk

/-- A webhook-turn oracle bundle whose inference calls always fail and
whose typing and send calls succeed. -/
def webTurnBasic : WebTurn where
  attempts := attemptsErr
  bitrix := bitrixOk
  clock := clockOk
  now_str := "2025-01-06 10:00:00 UTC"
  bot_typing_start := .ok ()
  bot_send_message := .ok ()

/-- A persistence oracle on which every agent read raises. -/
def dbBoom : Db where
  get_agent_by_bot_id _ _ := .error "database is locked"
  get_agents _ := .error "database is locked"
  get_agent_by_openline _ _ := .error "database is locked"
  get_rag_context _ _ := .ok none
  add_log _ _ := .ok ()

/-- A well-formed internal-message webhook form body. -/
def formC1 : List (String × String) :=
  [("event", "ONIMBOTMESSAGEADD"),
   ("data[PARAMS][DIALOG_ID]", "123"),
   ("data[PARAMS][MESSAGE]", "hello"),
   ("data[PARAMS][FROM_USER_ID]", "7"),
   ("data[PARAMS][TO_USER_ID]", "42"),
   ("data[PARAMS][CHAT_ID]", "123"),
   ("auth[domain]", "acme.bitrix24.ru")]

/-- A lifecycle event form body. -/
def formDelete : List (String × String) :=
  [("event", "ONIMBOTDELETE"), ("auth[domain]", "acme.bitrix24.ru")]

/-- A form body with an event name outside every recognized kind. -/
def formUnknown : List (String × String) :=
  [("event", "ONCRMLEADADD"), ("auth[domain]", "acme.bitrix24.ru")]

/-- A form body with one params key, one user key, one auth key and one
junk key matching no pattern. -/
def formParams : List (String × String) :=
  [("event", "ONIMBOTMESSAGEADD"),
   ("data[PARAMS][DIALOG_ID]", "123"),
   ("data[USER][NAME]", "Bob"),
   ("auth[domain]", "acme.bitrix24.ru"),
   ("junkkey", "z")]

/-- Twenty-one knowledge chunks with a one-letter filename and empty
content, each formatting to five characters. -/
def ragDocs21 : List RagDoc := List.replicate 21 ⟨"f", "", 0⟩

/-- The newer of two active agents of one tenant, bound to bot 7. -/
def agentNewer : Agent :=
  { baseAgent with
    id := 2
    name := "Newer"
    bot_id := some 7
    created_at := 200 }

/-- The older of two active agents of one tenant, bound to bot 9. -/
def agentOlder : Agent :=
  { baseAgent with
    id := 3
    name := "Older"
    bot_id := some 9
    created_at := 50 }

/-- Two active agents of one tenant carrying bound bot ids. -/
def agentsTwo : List Agent := [agentNewer, agentOlder]

/-- An active openline-typed agent of the tenant, bound to line 5. -/
def agentLine : Agent :=
  { baseAgent with
    id := 4
    name := "Line"
    bot_type := "openline"
    open_line_id := some "5"
    created_at := 10 }

/-- The openline tenant agent table. -/
def agentsOpenline : List Agent := [agentLine]

theorem buildCCResult_ok (raw : RawResponse) (r : CCResult)
    (h : buildCCResult raw = .ok r) :
    r.content = raw.content ∧ r.usage = raw.usage := by
  unfold buildCCResult at h
  cases h1 : buildToolCalls raw.tool_calls with
  | error e => rw [h1] at h; simp [Except.bind] at h
  | ok tcs =>
    rw [h1] at h
    simp only [Except.bind, Except.pure, pure, bind] at h
    cases h
    exact ⟨rfl, rfl⟩

theorem chat_completion_from_all_fail
    (attempts : Nat → Except String RawResponse) (errs : Nat → String)
    (mr : Int) :
    ∀ (g attempt : Nat), (mr - attempt).toNat ≤ g →
      (attempt : Int) < mr →
      (∀ k, attempt ≤ k → (k : Int) < mr → attempts k = .error (errs k)) →
      chat_completion_from attempts mr attempt =
        .raised ("OpenAI API failed: " ++ errs (mr - 1).toNat) := by
  intro g
  induction g with
  | zero => intro attempt hg h1 _; exact absurd h1 (by omega)
  | succ g ih =>
    intro attempt hg h1 h2
    rw [chat_completion_from]
    rw [if_pos h1, h2 attempt le_rfl h1]
    by_cases hl : (attempt : Int) + 1 ≥ mr
    · simp only [if_pos hl]
      have he : attempt = (mr - 1).toNat := by omega
      rw [he]
    · simp only [if_neg hl]
      exact ih (attempt + 1) (by omega) (by omega)
        (fun k hk hk2 => h2 k (by omega) hk2)

theorem chat_completion_from_success
    (attempts : Nat → Except String RawResponse) (errs : Nat → String)
    (mr : Int) (raw : RawResponse) (r : CCResult) :
    ∀ (g attempt j : Nat), j - attempt ≤ g →
      attempt ≤ j → (j : Int) < mr →
      (∀ k, attempt ≤ k → k < j → attempts k = .error (errs k)) →
      attempts j = .ok raw → buildCCResult raw = .ok r →
      chat_completion_from attempts mr attempt = .success r := by
  intro g
  induction g with
  | zero =>
    intro attempt j hg haj hj h2 hok hbuild
    have he : attempt = j := by omega
    subst he
    rw [chat_completion_from, if_pos (by omega : (attempt : Int) < mr), hok]
    dsimp only []
    rw [hbuild]
  | succ g ih =>
    intro attempt j hg haj hj h2 hok hbuild
    by_cases he : attempt = j
    · subst he
      rw [chat_completion_from, if_pos (by omega : (attempt : Int) < mr), hok]
      dsimp only []
      rw [hbuild]
    · rw [chat_completion_from, if_pos (by omega : (attempt : Int) < mr),
        h2 attempt le_rfl (by omega)]
      dsimp only []
      rw [if_neg (by omega : ¬(attempt : Int) + 1 ≥ mr)]
      exact ih (attempt + 1) j (by omega) (by omega) hj
        (fun k hk hk2 => h2 k (by omega) hk2) hok hbuild

/-- C5: the chat-completion driver retries the underlying call on any
exception, with nothing between attempts beyond the counter increment; when
every allowed attempt fails it raises the terminal error carrying the last
failure message, and when an attempt succeeds it returns the content, the
parsed tool calls and the token usage of that response. -/
theorem C5_retry_driver :
    (∀ (attempts : Nat → Except String RawResponse) (errs : Nat → String)
       (m : Nat), 1 ≤ m →
       (∀ k, k < m → attempts k = .error (errs k)) →
       chat_completion attempts (m : Int) =
         .raised ("OpenAI API failed: " ++ errs (m - 1))) ∧
    (∀ (attempts : Nat → Except String RawResponse) (errs : Nat → String)
       (m j : Nat) (raw : RawResponse) (r : CCResult), j < m →
       (∀ k, k < j → attempts k = .error (errs k)) →
       attempts j = .ok raw → buildCCResult raw = .ok r →
       chat_completion attempts (m : Int) = .success r ∧
         r.content = raw.content ∧ r.usage = raw.usage) := by
  constructor
  · intro attempts errs m hm h
    have hx := chat_completion_from_all_fail attempts errs (m : Int)
      ((m : Int) - 0).toNat 0 le_rfl (by omega)
      (fun k _ hk => h k (by omega))
    rw [chat_completion, hx]
    have he : ((m : Int) - 1).toNat = m - 1 := by omega
    rw [he]
  · intro attempts errs m j raw r hj h2 hok hbuild
    refine ⟨?_, buildCCResult_ok raw r hbuild⟩
    exact chat_completion_from_success attempts errs (m : Int) raw r j 0 j
      (by omega) (by omega) (by omega) (fun k _ hk => h2 k hk) hok hbuild

/-- Witness for C5 at concrete attempt sequences: three failing attempts
raise the terminal error with the last message, and a failure followed by a
success returns the parsed response. -/
theorem C5_retry_driver_witness :
    chat_completion attemptsErr ((3 : Nat) : Int) =
      .raised ("OpenAI API failed: " ++ "timeout") ∧
    chat_completion attemptsSeq ((3 : Nat) : Int) =
      .success ⟨some "Hi there!", [], ⟨10, 5, 15⟩⟩ := by
  constructor
  · exact C5_retry_driver.1 attemptsErr (fun _ => "timeout") 3 (by omega)
      (fun k _ => rfl)
  · exact (C5_retry_driver.2 attemptsSeq (fun _ => "connection reset") 3 1
      rawText ⟨some "Hi there!", [], ⟨10, 5, 15⟩⟩ (by omega)
      (fun k hk => by
        have hz : k = 0 := by omega
        subst hz; rfl)
      rfl rfl).1

/-- C10: with a nonpositive retry bound the while loop body never runs, so
chat_completion returns the Python None without raising and without ever
consulting the attempts oracle. -/
theorem C10_nonpositive_retries_none :
    ∀ (attempts : Nat → Except String RawResponse) (max_retries : Int),
      max_retries ≤ 0 → chat_completion attempts max_retries = .retNone := by
  intro attempts mr h
  rw [chat_completion, chat_completion_from, if_neg (by omega)]

/-- Witness for C10 at a concrete oracle and the zero bound. -/
theorem C10_nonpositive_retries_none_witness :
    chat_completion attemptsErr 0 = .retNone :=
  C10_nonpositive_retries_none attemptsErr 0 (by omega)

/-- C4: the tool executor is a total function into result dictionaries (its
type carries no exception case). An unregistered name reports an unknown
function failure naming the tool; every exception raised by an invoked
platform-client method is caught and reported as a failure carrying its
message; and the chat-control tools report a failure, rather than raise,
when no dialog id was supplied. -/
theorem C4_tool_executor :
    (∀ (tool_name : String) (arguments : List (String × Arg))
       (bx : BitrixClient) (chat_id : Option String) (tz : String)
       (clock : String → Except String (String × String × String)),
       tool_name ∉ tools_definition_names →
       execute_tool tool_name arguments bx chat_id tz clock =
         (mkToolError ("Unknown function: " ++ tool_name), []) ∧
       (∃ pre post, "Unknown function: " ++ tool_name =
         pre ++ tool_name ++ post)) ∧
    (∀ (args : List (String × Arg)) (bx : BitrixClient)
       (cid : Option String) (tz : String)
       (clock : String → Except String (String × String × String))
       (m : String),
      (bx.crm_lead_add (crm_lead_add_fields args) = .error m →
        execute_tool "crm_lead_add" args bx cid tz clock =
          (mkToolError m, ["crm_lead_add"])) ∧
      (bx.crm_deal_add (crm_deal_add_fields args) = .error m →
        execute_tool "crm_deal_add" args bx cid tz clock =
          (mkToolError m, ["crm_deal_add"])) ∧
      (bx.crm_contact_add (crm_contact_add_fields args) = .error m →
        execute_tool "crm_contact_add" args bx cid tz clock =
          (mkToolError m, ["crm_contact_add"])) ∧
      (∀ v, lookupKV args "lead_id" = some v → bx.crm_lead_get v = .error m →
        execute_tool "crm_lead_get" args bx cid tz clock =
          (mkToolError m, ["crm_lead_get"])) ∧
      (∀ v, lookupKV args "lead_id" = some v →
        bx.crm_lead_update v (crm_lead_update_fields args) = .error m →
        execute_tool "crm_lead_update" args bx cid tz clock =
          (mkToolError m, ["crm_lead_update"])) ∧
      (∀ v, lookupKV args "deal_id" = some v → bx.crm_deal_get v = .error m →
        execute_tool "crm_deal_get" args bx cid tz clock =
          (mkToolError m, ["crm_deal_get"])) ∧
      (∀ v, lookupKV args "deal_id" = some v →
        bx.crm_deal_update v (crm_deal_update_fields args) = .error m →
        execute_tool "crm_deal_update" args bx cid tz clock =
          (mkToolError m, ["crm_deal_update"])) ∧
      (∀ v, lookupKV args "contact_id" = some v →
        bx.crm_contact_get v = .error m →
        execute_tool "crm_contact_get" args bx cid tz clock =
          (mkToolError m, ["crm_contact_get"])) ∧
      (∀ c v, c ≠ "" → lookupKV args "user_id" = some v →
        bx.openlines_operator_transfer (stripChatTag c) v = .error m →
        execute_tool "transfer_chat_to_user" args bx (some c) tz clock =
          (mkToolError m, ["openlines_operator_transfer"])) ∧
      (∀ c, c ≠ "" → bx.openlines_operator_finish (stripChatTag c) = .error m →
        execute_tool "disconnect_agent_from_chat" args bx (some c) tz clock =
          (mkToolError m, ["openlines_operator_finish"])) ∧
      (clock tz = .error m →
        execute_tool "get_todays_date" args bx cid tz clock =
          (mkToolError m, []))) ∧
    (∀ (args : List (String × Arg)) (bx : BitrixClient) (tz : String)
       (clock : String → Except String (String × String × String)),
      execute_tool "transfer_chat_to_user" args bx none tz clock =
        (mkToolError "chat_id required", []) ∧
      execute_tool "transfer_chat_to_user" args bx (some "") tz clock =
        (mkToolError "chat_id required", []) ∧
      execute_tool "disconnect_agent_from_chat" args bx none tz clock =
        (mkToolError "chat_id required", []) ∧
      execute_tool "disconnect_agent_from_chat" args bx (some "") tz clock =
        (mkToolError "chat_id required", [])) := by
  refine ⟨?_, ?_, ?_⟩
  · intro tool_name arguments bx chat_id tz clock hmem
    simp only [tools_definition_names, List.mem_cons, List.not_mem_nil,
      or_false, not_or] at hmem
    obtain ⟨h1, h2, h3, h4, h5, h6, h7, h8, h9, h10, h11⟩ := hmem
    refine ⟨?_, "Unknown function: ", "", by simp⟩
    simp [execute_tool, h1, h2, h3, h4, h5, h6, h7, h8, h9, h10, h11]
  · intro args bx cid tz clock m
    refine ⟨?_, ?_, ?_, ?_, ?_, ?_, ?_, ?_, ?_, ?_, ?_⟩
    · intro h; simp [execute_tool, h]
    · intro h; simp [execute_tool, h]
    · intro h; simp [execute_tool, h]
    · intro v hv h; simp [execute_tool, getItemArg, hv, h]
    · intro v hv h; simp [execute_tool, getItemArg, hv, h]
    · intro v hv h; simp [execute_tool, getItemArg, hv, h]
    · intro v hv h; simp [execute_tool, getItemArg, hv, h]
    · intro v hv h; simp [execute_tool, getItemArg, hv, h]
    · intro c v hc hv h
      simp [execute_tool, truthyOptStr, hc, getItemArg, hv, h]
    · intro c hc h; simp [execute_tool, truthyOptStr, hc, h]
    · intro h; simp [execute_tool, h]
  · intro args bx tz clock
    refine ⟨?_, ?_, ?_, ?_⟩ <;> simp [execute_tool, truthyOptStr]

/-- Witness for C4 at concrete inputs: an unregistered name, a raising
platform call, and missing dialog ids. -/
theorem C4_tool_executor_witness :
    execute_tool "made_up_tool" [] bitrixOk none "UTC" clockOk =
      (mkToolError ("Unknown function: " ++ "made_up_tool"), []) ∧
    execute_tool "crm_lead_add" [("name", .str "Al")] (bitrixErr "boom")
      none "UTC" clockOk = (mkToolError "boom", ["crm_lead_add"]) ∧
    execute_tool "disconnect_agent_from_chat" [] bitrixOk none "UTC"
      clockOk = (mkToolError "chat_id required", []) := by
  refine ⟨(C4_tool_executor.1 "made_up_tool" [] bitrixOk none "UTC" clockOk
    (by decide)).1, ?_, ?_⟩
  · exact (C4_tool_executor.2.1 [("name", .str "Al")] (bitrixErr "boom")
      none "UTC" clockOk "boom").1 rfl
  · exact (C4_tool_executor.2.2 [] bitrixOk "UTC" clockOk).2.2.1

/-- C2: the working-hours gate on the Monday 09:00-18:00 schedule accepts
Monday 10:00, rejects every Tuesday time and rejects Monday 19:00; any
weekday absent from the schedule map is outside hours; a disabled gate is
always within hours; and an outside-hours turn sends exactly the formatted
hours notice with its log entry and never invokes the inference
capability. -/
theorem C2_working_hours_gate :
    (∀ (agent : Agent),
       agent.working_hours_enabled = true →
       agent.working_hours_schedule = [("monday", ⟨"09:00", "18:00"⟩)] →
       is_working_hours agent ⟨"monday", "10:00"⟩ = true ∧
       (∀ t, is_working_hours agent ⟨"tuesday", t⟩ = false) ∧
       is_working_hours agent ⟨"monday", "19:00"⟩ = false) ∧
    (∀ (agent : Agent) (now : LocalTime),
       agent.working_hours_enabled = true →
       lookupKV agent.working_hours_schedule now.weekday = none →
       is_working_hours agent now = false) ∧
    (∀ (agent : Agent) (now : LocalTime),
       agent.working_hours_enabled = false →
       is_working_hours agent now = true) ∧
    (∀ (agent : Agent) (env : TurnEnv) (chat_id : String),
       is_working_hours agent env.now = false →
       process_chat_messages agent env chat_id =
         [.sendMessage agent.bot_id chat_id (working_hours_notice agent),
          .addLog "outside_working_hours" true] ∧
       Effect.inferenceCall ∉ process_chat_messages agent env chat_id) := by
  refine ⟨?_, ?_, ?_, ?_⟩
  · intro agent hen hsched
    refine ⟨?_, fun t => ?_, ?_⟩ <;>
      simp [is_working_hours, hen, hsched, lookupKV] <;> decide
  · intro agent now hen hlook
    simp [is_working_hours, hen, hlook]
  · intro agent now hen
    simp [is_working_hours, hen]
  · intro agent env chat_id hout
    have htrace : process_chat_messages agent env chat_id =
        [.sendMessage agent.bot_id chat_id (working_hours_notice agent),
         .addLog "outside_working_hours" true] := by
      simp [process_chat_messages, hout]
    refine ⟨htrace, ?_⟩
    rw [htrace]
    simp

/-- Witness for C2 on the concrete Monday-only agent and a Tuesday
turn. -/
theorem C2_working_hours_gate_witness :
    is_working_hours agentMon ⟨"monday", "10:00"⟩ = true ∧
    is_working_hours agentMon ⟨"tuesday", "10:00"⟩ = false ∧
    is_working_hours agentMon ⟨"monday", "19:00"⟩ = false ∧
    is_working_hours { agentMon with working_hours_enabled := false }
      ⟨"tuesday", "03:00"⟩ = true ∧
    process_chat_messages agentMon turnEnvTue "chat15" =
      [.sendMessage agentMon.bot_id "chat15" (working_hours_notice agentMon),
       .addLog "outside_working_hours" true] := by
  have h := C2_working_hours_gate
  refine ⟨(h.1 agentMon rfl rfl).1, (h.1 agentMon rfl rfl).2.1 "10:00",
    (h.1 agentMon rfl rfl).2.2, ?_, ?_⟩
  · exact h.2.2.1 { agentMon with working_hours_enabled := false }
      ⟨"tuesday", "03:00"⟩ rfl
  · exact (h.2.2.2 agentMon turnEnvTue "chat15" (by decide)).1

theorem applyEffects_append (chat : Chat) (l1 l2 : List Effect) :
    applyEffects chat (l1 ++ l2) = applyEffects (applyEffects chat l1) l2 :=
  List.foldl_append ..

theorem applyEffects_send_and_finish (chat : Chat) (agent : Agent)
    (chat_id : String) (fm : Option String) (msgs : List Msg) :
    applyEffects chat (send_and_finish agent chat_id fm msgs) = chat := by
  by_cases h : truthyOptStr fm <;>
    simp [send_and_finish, h, applyEffects, applyEffect]

theorem applyEffects_bitrixCalls (chat : Chat) (l : List String) :
    applyEffects chat (l.map Effect.bitrixCall) = chat := by
  induction l with
  | nil => rfl
  | cons a l ih => simp [applyEffects, applyEffect] at ih ⊢; exact ih

theorem bitrixCall_not_mem_send_and_finish (m : String) (agent : Agent)
    (chat_id : String) (fm : Option String) (msgs : List Msg) :
    Effect.bitrixCall m ∉ send_and_finish agent chat_id fm msgs := by
  by_cases h : truthyOptStr fm <;> simp [send_and_finish, h]

theorem execute_tool_lead_add_calls (args : List (String × Arg))
    (bx : BitrixClient) (cid : Option String) (tz : String)
    (clock : String → Except String (String × String × String)) :
    (execute_tool "crm_lead_add" args bx cid tz clock).2 = ["crm_lead_add"] := by
  cases h : bx.crm_lead_add (crm_lead_add_fields args) <;>
    simp [execute_tool, h]



theorem applyEffects_cons (chat : Chat) (e : Effect) (l : List Effect) :
    applyEffects chat (e :: l) = applyEffects (applyEffect chat e) l := rfl

/-- C6: in a turn whose single tool call is a successful crm_lead_add
returning a lead id, an inbound-only agent ends with the session status
completed and the created lead id recorded; a non-inbound-only agent leaves
the session row unchanged; and in neither case does the rule reach the
platform with a disconnect call. -/
theorem C6_inbound_only :
    ∀ (agent : Agent) (env : TurnEnv) (chat : Chat) (chat_id : String)
      (tc : ToolCallReq) (resp : CCResult) (n : Int),
      is_working_hours agent env.now = true →
      env.unprocessed ≠ [] →
      chat_completion env.attempts agent.max_retries = .success resp →
      resp.tool_calls = [tc] →
      tc.function = "crm_lead_add" →
      (execute_tool tc.function tc.arguments env.bitrix (some chat_id)
          agent.timezone env.clock).1.success = true →
      (execute_tool tc.function tc.arguments env.bitrix (some chat_id)
          agent.timezone env.clock).1.lead_id = some n →
      n ≠ 0 →
      (agent.inbound_only = true →
        (applyEffects chat (process_chat_messages agent env chat_id)).status =
          "completed" ∧
        (applyEffects chat
          (process_chat_messages agent env chat_id)).created_lead_id =
          some n) ∧
      (agent.inbound_only = false →
        applyEffects chat (process_chat_messages agent env chat_id) = chat) ∧
      Effect.bitrixCall "openlines_operator_finish" ∉
        process_chat_messages agent env chat_id := by
  intro agent env chat chat_id tc resp n hwh hmsgs hcc htc hf hsucc hlead hn
  have hne : env.unprocessed.isEmpty = false := by
    simpa [List.isEmpty_iff] using hmsgs
  have htrace : ∀ (P : List Effect → Prop),
      (∀ fm, P (Effect.inferenceCall ::
        ((execute_tool tc.function tc.arguments env.bitrix (some chat_id)
            agent.timezone env.clock).2.map Effect.bitrixCall ++
          ([Effect.addLog ("tool_call_" ++ tc.function) true] ++
            (inbound_only_rule agent tc.function
              (execute_tool tc.function tc.arguments env.bitrix (some chat_id)
                agent.timezone env.clock).1 ++
             send_and_finish agent chat_id fm env.unprocessed))))) →
      P (process_chat_messages agent env chat_id) := by
    intro P hP
    rw [process_chat_messages, if_neg (by simp [hwh]), if_neg (by simp [hne]),
      hcc]
    dsimp only []
    rw [htc]
    simp only [List.map_cons, List.map_nil, process_tool_call, hsucc,
      List.flatten_cons, List.flatten_nil, List.append_nil, List.append_assoc,
      List.isEmpty_cons, Bool.not_false, if_pos]
    exact hP _
  have hrule_t : agent.inbound_only = true →
      inbound_only_rule agent tc.function
        (execute_tool tc.function tc.arguments env.bitrix (some chat_id)
          agent.timezone env.clock).1 =
      [.updateChatStatus "completed" (some n)
        (execute_tool tc.function tc.arguments env.bitrix (some chat_id)
          agent.timezone env.clock).1.deal_id,
       .addLog "inbound_only_disconnect" true] := by
    intro hio
    have hs := hsucc
    have hl := hlead
    rw [hf] at hs hl
    simp [inbound_only_rule, hio, hf, hs, hl]
  have hrule_f : agent.inbound_only = false →
      inbound_only_rule agent tc.function
        (execute_tool tc.function tc.arguments env.bitrix (some chat_id)
          agent.timezone env.clock).1 = [] := by
    intro hio
    simp [inbound_only_rule, hio]
  have hcalls : (execute_tool tc.function tc.arguments env.bitrix
      (some chat_id) agent.timezone env.clock).2 = ["crm_lead_add"] := by
    rw [hf]; exact execute_tool_lead_add_calls ..
  refine ⟨?_, ?_, ?_⟩
  · intro hio
    refine htrace (fun l => (applyEffects chat l).status = "completed" ∧
      (applyEffects chat l).created_lead_id = some n) ?_
    intro fm
    rw [hrule_t hio, hcalls]
    simp only [List.map_cons, List.map_nil]
    simp [applyEffects_cons, applyEffects_append, applyEffect,
      applyEffects_send_and_finish, update_chat_status, truthyOptInt, hn]
  · intro hio
    refine htrace (fun l => applyEffects chat l = chat) ?_
    intro fm
    rw [hrule_f hio, hcalls]
    simp only [List.map_cons, List.map_nil]
    simp [applyEffects_cons, applyEffects_append, applyEffect,
      applyEffects_send_and_finish]
  · refine htrace
      (fun l => Effect.bitrixCall "openlines_operator_finish" ∉ l) ?_
    intro fm
    rw [hcalls]
    have hnm := bitrixCall_not_mem_send_and_finish "openlines_operator_finish"
      agent chat_id fm env.unprocessed
    by_cases hio : agent.inbound_only = true
    · rw [hrule_t hio]
      simp [hnm]
    · rw [hrule_f (by simpa using hio)]
      simp [hnm]

/-- Witness for C6: one concrete turn with a successful lead creation,
run once on an inbound-only agent and once without the flag. -/
theorem C6_inbound_only_witness :
    (applyEffects ⟨1, 1, "15", "active", none, none⟩
      (process_chat_messages { baseAgent with inbound_only := true }
        turnEnvLead "15")).status = "completed" ∧
    (applyEffects ⟨1, 1, "15", "active", none, none⟩
      (process_chat_messages { baseAgent with inbound_only := true }
        turnEnvLead "15")).created_lead_id = some 1 ∧
    applyEffects ⟨1, 1, "15", "active", none, none⟩
      (process_chat_messages baseAgent turnEnvLead "15") =
      ⟨1, 1, "15", "active", none, none⟩ := by
  have hcc : chat_completion turnEnvLead.attempts
      ({ baseAgent with inbound_only := true } : Agent).max_retries =
      .success ⟨none,
        [⟨"call_1", "crm_lead_add", [("name", Arg.str "Alice")]⟩],
        ⟨10, 5, 15⟩⟩ := by
    exact chat_completion_from_success attemptsLead (fun _ => "") 3
      rawLead _ 0 0 0 (by omega) (by omega) (by omega)
      (fun k hk hk2 => absurd hk2 (by omega)) rfl rfl
  have h1 := C6_inbound_only { baseAgent with inbound_only := true }
    turnEnvLead ⟨1, 1, "15", "active", none, none⟩ "15"
    ⟨"call_1", "crm_lead_add", [("name", Arg.str "Alice")]⟩
    ⟨none, [⟨"call_1", "crm_lead_add", [("name", Arg.str "Alice")]⟩],
      ⟨10, 5, 15⟩⟩
    1 rfl (by decide) hcc rfl rfl rfl rfl (by decide)
  have h2 := C6_inbound_only baseAgent
    turnEnvLead ⟨1, 1, "15", "active", none, none⟩ "15"
    ⟨"call_1", "crm_lead_add", [("name", Arg.str "Alice")]⟩
    ⟨none, [⟨"call_1", "crm_lead_add", [("name", Arg.str "Alice")]⟩],
      ⟨10, 5, 15⟩⟩
    1 rfl (by decide) hcc rfl rfl rfl rfl (by decide)
  exact ⟨(h1.1 rfl).1, (h1.1 rfl).2, h2.2.1 rfl⟩

theorem resolve_message_agent_dbOfAgents (agents : List Agent) (d : String)
    (b : Option Int) :
    resolve_message_agent (dbOfAgents agents) d b = .ok
      (match (if truthyOptInt b then
          get_agent_by_bot_id_db agents (b.getD 0) d else none) with
       | some a => some a
       | none => (get_agents_db agents d).find? fun a =>
           a.is_active && truthyOptInt a.bot_id) := by
  rw [resolve_message_agent]
  by_cases h : truthyOptInt b
  · simp only [h, if_pos, dbOfAgents, bind, Except.bind]
    cases get_agent_by_bot_id_db agents (b.getD 0) d <;> rfl
  · simp only [h, Bool.false_eq_true, if_false, dbOfAgents, bind, Except.bind,
      pure, Except.pure]

/-- C1 amended: the handler never propagates an exception. Exceptions
raised inside the inference call, the tool execution, the typing indicator
or the outbound send are caught within the pipeline and the webhook still
answers 200 for any oracle bundle whatsoever, as long as the persistence
reads and the audit write succeed; but an exception that reaches the
top-level catch of the handler is answered with a JSON error body and HTTP
status 500, not a success acknowledgement. -/
theorem C1_webhook_error_handling :
    (∀ (agents : List Agent) (turn : WebTurn) (ed : Envelope),
      (handle_message_add (dbOfAgents agents) turn ed).statusCode = 200) ∧
    (∀ (db : Db) (turn : WebTurn) (ed : Envelope) (e : String),
      handle_message_add_body db turn ed = .error e →
      handle_message_add db turn ed = ⟨500, [("error", .s e)]⟩) := by
  constructor
  · intro agents turn ed
    rw [handle_message_add, handle_message_add_body]
    simp only [resolve_message_agent_dbOfAgents]
    simp only [bind, Except.bind, pure, Except.pure, dbOfAgents]
    split <;> rename_i heq
    · repeat' split at heq
      all_goals (injection heq with h; rw [← h]; rfl)
    · repeat' split at heq
      all_goals simp at heq
  · intro db turn ed e h
    rw [handle_message_add, h]

/-- Counterexample for C1 as stated: a raising agent lookup inside the
internal-message turn is answered with HTTP status 500 carrying the error
text, not with a success acknowledgement. -/
theorem C1_webhook_error_handling_counterexample :
    bot_webhook dbBoom webTurnBasic formC1 =
      ⟨500, [("error", JVal.s "database is locked")]⟩ ∧
    (bot_webhook dbBoom webTurnBasic formC1).statusCode ≠ 200 := by
  constructor
  · decide
  · decide

/-- Witness for C1 amended at a concrete request: with a pure database the
failing inference turn still answers 200, and with the raising database
the handler answers the 500 error body. -/
theorem C1_webhook_error_handling_witness :
    (handle_message_add (dbOfAgents agentsTwo) webTurnBasic
      (parse_bitrix_form_data formC1)).statusCode = 200 ∧
    handle_message_add dbBoom webTurnBasic
      (parse_bitrix_form_data formC1) =
      ⟨500, [("error", JVal.s "database is locked")]⟩ :=
  ⟨C1_webhook_error_handling.1 agentsTwo webTurnBasic
    (parse_bitrix_form_data formC1),
   C1_webhook_error_handling.2 dbBoom webTurnBasic
    (parse_bitrix_form_data formC1) "database is locked" (by decide)⟩

/-- C9: an event name outside every recognized internal-message, lifecycle
and open-line kind is acknowledged with an ok status echoing the literal
name and a 200 status; lifecycle events such as ONIMBOTDELETE are
acknowledged with a constant ok body whose value is independent of the
persistence layer and of every other collaborator, so no agent record is
read or modified. -/
theorem C9_unknown_events :
    (∀ (db : Db) (turn : WebTurn) (form : List (String × String))
       (name : String),
       (parse_bitrix_form_data form).event = some name →
       name ∉ ["ONIMBOTMESSAGEADD", "ONIMBOTJOINCHAT", "ONIMBOTWELCOMEMESSAGE",
         "ONIMCONNECTORMESSAGEADD", "ONIMOPENLINEMESSAGEADD",
         "ONIMBOTMESSAGEUPDATE", "ONIMBOTMESSAGEDELETE", "ONIMBOTDELETE"] →
       bot_webhook db turn form =
         ⟨200, [("status", .s "ok"), ("event", .s name)]⟩) ∧
    (∀ (db db2 : Db) (turn turn2 : WebTurn) (form : List (String × String))
       (name : String),
       (parse_bitrix_form_data form).event = some name →
       name ∈ ["ONIMBOTJOINCHAT", "ONIMBOTWELCOMEMESSAGE",
         "ONIMBOTMESSAGEUPDATE", "ONIMBOTMESSAGEDELETE", "ONIMBOTDELETE"] →
       bot_webhook db turn form = ok200 [("status", .s "ok")] ∧
       bot_webhook db turn form = bot_webhook db2 turn2 form) := by
  constructor
  · intro db turn form name hev hmem
    simp only [List.mem_cons, List.not_mem_nil, or_false, not_or] at hmem
    obtain ⟨h1, h2, h3, h4, h5, h6, h7, h8⟩ := hmem
    rw [bot_webhook]
    simp only [hev, Option.some.injEq]
    rw [if_neg h1, if_neg h2, if_neg h3, if_neg h4, if_neg h5, if_neg h6,
      if_neg h7, if_neg h8]
  · intro db db2 turn turn2 form name hev hmem
    rw [bot_webhook, bot_webhook]
    simp only [hev, Option.some.injEq]
    simp only [List.mem_cons, List.not_mem_nil, or_false] at hmem
    rcases hmem with h | h | h | h | h <;> subst h <;> simp [ok200]

/-- Witness for C9 at a concrete unknown event and a concrete lifecycle
event. -/
theorem C9_unknown_events_witness :
    bot_webhook dbBoom webTurnBasic formUnknown =
      ⟨200, [("status", .s "ok"), ("event", .s "ONCRMLEADADD")]⟩ ∧
    bot_webhook dbBoom webTurnBasic formDelete =
      ok200 [("status", .s "ok")] ∧
    bot_webhook dbBoom webTurnBasic formDelete =
      bot_webhook (dbOfAgents agentsTwo) webTurnBasic formDelete := by
  refine ⟨C9_unknown_events.1 dbBoom webTurnBasic formUnknown "ONCRMLEADADD"
    (by decide) (by decide), ?_, ?_⟩
  · exact (C9_unknown_events.2 dbBoom (dbOfAgents agentsTwo) webTurnBasic
      webTurnBasic formDelete "ONIMBOTDELETE" (by decide) (by decide)).1
  · exact (C9_unknown_events.2 dbBoom (dbOfAgents agentsTwo) webTurnBasic
      webTurnBasic formDelete "ONIMBOTDELETE" (by decide) (by decide)).2

theorem mem_insertSorted {α : Type} (le : α → α → Bool) (a x : α)
    (l : List α) : x ∈ insertSorted le a l ↔ x = a ∨ x ∈ l := by
  induction l with
  | nil => simp [insertSorted]
  | cons b l ih =>
    rw [insertSorted]
    by_cases h : le a b
    · simp [h, ih]
    · simp [h, ih]
      tauto

theorem mem_sortBy {α : Type} (le : α → α → Bool) (x : α) (l : List α) :
    x ∈ sortBy le l ↔ x ∈ l := by
  induction l with
  | nil => simp [sortBy]
  | cons a l ih => rw [sortBy, mem_insertSorted le a x (sortBy le l)]; simp [ih]

theorem find?_congr_mem {α : Type} (l : List α) (p q : α → Bool)
    (h : ∀ a ∈ l, p a = q a) : l.find? p = l.find? q := by
  induction l with
  | nil => rfl
  | cons a l ih =>
    rw [List.find?_cons, List.find?_cons, h a (by simp)]
    cases q a
    · exact ih fun b hb => h b (by simp [hb])
    · rfl

/-- C8: when TO_USER_ID matches no bound bot id of the tenant, the router
resolves to the first agent of the tenant listing that is active and
carries a non-null bound bot id, and resolves to none exactly when no such
agent exists; when an open-line id matches no agent, the open-line router
resolves to the first active agent of openline type in the tenant listing.
Bot ids bound by the registration step are nonzero, which the third
hypothesis records. -/
theorem C8_fallback_routing :
    (∀ (agents : List Agent) (domain : String) (n : Int), n ≠ 0 →
       (∀ a ∈ agents, ¬(a.bot_id = some n ∧ a.domain = domain)) →
       (∀ a ∈ agents, a.bot_id ≠ some 0) →
       resolve_message_agent (dbOfAgents agents) domain (some n) =
         .ok ((get_agents_db agents domain).find? fun a =>
           a.is_active && a.bot_id.isSome) ∧
       (resolve_message_agent (dbOfAgents agents) domain (some n) = .ok none ↔
         ∀ a ∈ get_agents_db agents domain,
           ¬(a.is_active = true ∧ a.bot_id.isSome = true))) ∧
    (∀ (agents : List Agent) (domain : String) (lid : String),
       (∀ a ∈ agents, ¬(a.open_line_id = some lid ∧ a.domain = domain)) →
       resolve_openline_agent (dbOfAgents agents) domain (some lid) =
         .ok ((get_agents_db agents domain).find? fun a =>
           a.is_active && a.bot_type == "openline")) := by
  constructor
  · intro agents domain n hn hmiss hreal
    have hdb : get_agent_by_bot_id_db agents n domain = none := by
      rw [get_agent_by_bot_id_db, List.find?_eq_none]
      intro a ha
      have := hmiss a ha
      simp only [Bool.and_eq_true, beq_iff_eq]
      tauto
    have heq : resolve_message_agent (dbOfAgents agents) domain (some n) =
        .ok ((get_agents_db agents domain).find? fun a =>
          a.is_active && a.bot_id.isSome) := by
      rw [resolve_message_agent_dbOfAgents]
      have ht : truthyOptInt (some n) = true := by
        simp [truthyOptInt, hn]
      rw [if_pos ht]
      simp only [Option.getD_some, hdb]
      congr 1
      apply find?_congr_mem
      intro a ha
      have ha2 : a ∈ agents := by
        have := (mem_sortBy _ a _).mp ha
        exact (List.mem_filter.mp this).1
      have hz := hreal a ha2
      congr 1
      cases hb : a.bot_id with
      | none => rfl
      | some m =>
        have : m ≠ 0 := fun hm => hz (by rw [hb, hm])
        simp [truthyOptInt, this]
    refine ⟨heq, ?_⟩
    rw [heq]
    simp only [Except.ok.injEq, List.find?_eq_none, Bool.and_eq_true,
      not_and]
  · intro agents domain lid hmiss
    have hdb : get_agent_by_openline_db agents lid domain = none := by
      rw [get_agent_by_openline_db, List.find?_eq_none]
      intro a ha
      have := hmiss a ha
      simp only [Bool.and_eq_true, beq_iff_eq]
      tauto
    rw [resolve_openline_agent]
    by_cases ht : truthyOptStr (some lid)
    · simp only [ht, if_pos, dbOfAgents, bind, Except.bind, Option.getD_some,
        hdb, pure, Except.pure]
    · simp only [ht, Bool.false_eq_true, if_false, dbOfAgents, bind,
        Except.bind, pure, Except.pure]

/-- Witness for C8 at concrete tenant tables: bot id 100 matches neither
stored agent and the turn falls back to the newest active agent; line 99
matches no agent and the open-line turn falls back to the active openline
agent. -/
theorem C8_fallback_routing_witness :
    resolve_message_agent (dbOfAgents agentsTwo) "acme.bitrix24.ru"
      (some 100) = .ok (some agentNewer) ∧
    resolve_openline_agent (dbOfAgents agentsOpenline) "acme.bitrix24.ru"
      (some "99") = .ok (some agentLine) := by
  constructor
  · exact ((C8_fallback_routing.1 agentsTwo "acme.bitrix24.ru" 100
      (by decide) (by decide) (by decide)).1).trans (by decide)
  · exact (C8_fallback_routing.2 agentsOpenline "acme.bitrix24.ru" "99"
      (by decide)).trans (by decide)

theorem lookupKV_insertKV {α : Type} (l : List (String × α)) (k : String)
    (v : α) (x : String) :
    lookupKV (insertKV l k v) x = if k = x then some v else lookupKV l x := by
  induction l with
  | nil => rfl
  | cons kv l ih =>
    obtain ⟨k1, v1⟩ := kv
    rw [insertKV]
    by_cases h1 : k1 = k
    · subst h1
      rw [if_pos rfl, lookupKV, lookupKV]
      by_cases h2 : k1 = x
      · rw [if_pos h2, if_pos h2]
      · rw [if_neg h2, if_neg h2, if_neg h2]
    · rw [if_neg h1, lookupKV, lookupKV, ih]
      by_cases h2 : k1 = x
      · subst h2
        rw [if_pos rfl, if_neg (fun hh => h1 hh.symm), if_pos rfl]
      · rw [if_neg h2, if_neg h2]

theorem dropLit_some : ∀ (p cs r : List Char), dropLit p cs = some r →
    cs = p ++ r := by
  intro p
  induction p with
  | nil =>
    intro cs r h
    rw [dropLit] at h
    cases h
    rfl
  | cons c p ih =>
    intro cs r h
    cases cs with
    | nil => exact absurd h (by rw [dropLit]; simp)
    | cons c2 cs =>
      rw [dropLit] at h
      by_cases hc : (c2 == c) = true
      · rw [if_pos hc] at h
        have := ih cs r h
        rw [List.cons_append, ← this, (beq_iff_eq).mp hc]
      · rw [if_neg hc] at h
        exact absurd h (by simp)

theorem matchGroup_some_shape (lit k x : String)
    (h : matchGroup lit k = some x) :
    ∃ r, k.toList = lit.toList ++ r := by
  rw [matchGroup] at h
  cases hd : dropLit lit.toList k.toList with
  | none => rw [hd] at h; exact absurd h (by simp)
  | some rest => exact ⟨rest, dropLit_some _ _ _ hd⟩

theorem matchGroup_params_user (k x : String)
    (h : matchGroup "data[PARAMS][" k = some x) :
    matchGroup "data[USER][" k = none := by
  obtain ⟨r, hk⟩ := matchGroup_some_shape _ _ _ h
  rw [matchGroup, hk]
  rfl

theorem matchGroup_params_auth (k x : String)
    (h : matchGroup "data[PARAMS][" k = some x) :
    matchGroup "auth[" k = none := by
  obtain ⟨r, hk⟩ := matchGroup_some_shape _ _ _ h
  rw [matchGroup, hk]
  rfl

theorem matchGroup_user_auth (k x : String)
    (h : matchGroup "data[USER][" k = some x) :
    matchGroup "auth[" k = none := by
  obtain ⟨r, hk⟩ := matchGroup_some_shape _ _ _ h
  rw [matchGroup, hk]
  rfl

theorem foldFormEntry_event (env : Envelope) (kv : String × String) :
    (foldFormEntry env kv).event = env.event := by
  rw [foldFormEntry]
  repeat' split
  all_goals rfl

theorem foldl_foldFormEntry_event (l : List (String × String)) :
    ∀ env : Envelope, (l.foldl foldFormEntry env).event = env.event := by
  induction l with
  | nil => intro env; rfl
  | cons kv l ih =>
    intro env
    rw [List.foldl_cons, ih, foldFormEntry_event]

theorem foldFormEntry_params (env : Envelope) (kv : String × String)
    (x : String) :
    lookupKV (foldFormEntry env kv).params x =
      (if matchGroup "data[PARAMS][" kv.1 = some x then some kv.2
       else lookupKV env.params x) := by
  rw [foldFormEntry]
  cases hp : matchGroup "data[PARAMS][" kv.1 with
  | some n =>
    dsimp only []
    rw [lookupKV_insertKV]
    by_cases hx : n = x
    · subst hx
      rw [if_pos rfl, if_pos rfl]
    · rw [if_neg hx, if_neg (by simp [hx])]
  | none =>
    rw [if_neg (by simp)]
    repeat' split
    all_goals first | rfl | simp_all

theorem foldFormEntry_user (env : Envelope) (kv : String × String)
    (x : String) :
    lookupKV ((foldFormEntry env kv).user.getD []) x =
      (if matchGroup "data[USER][" kv.1 = some x then some kv.2
       else lookupKV (env.user.getD []) x) := by
  rw [foldFormEntry]
  cases hp : matchGroup "data[PARAMS][" kv.1 with
  | some n =>
    dsimp only []
    rw [if_neg (by simp [matchGroup_params_user kv.1 n hp])]
  | none =>
    cases hu : matchGroup "data[USER][" kv.1 with
    | some n =>
      dsimp only [Option.getD_some]
      rw [lookupKV_insertKV]
      by_cases hx : n = x
      · subst hx
        rw [if_pos rfl, if_pos rfl]
      · rw [if_neg hx, if_neg (by simp [hx])]
    | none =>
      rw [if_neg (by simp)]
      repeat' split
      all_goals first | rfl | simp_all

theorem foldFormEntry_auth (env : Envelope) (kv : String × String)
    (x : String) :
    lookupKV (foldFormEntry env kv).auth x =
      (if matchGroup "auth[" kv.1 = some x then some kv.2
       else lookupKV env.auth x) := by
  rw [foldFormEntry]
  cases hp : matchGroup "data[PARAMS][" kv.1 with
  | some n =>
    dsimp only []
    rw [if_neg (by simp [matchGroup_params_auth kv.1 n hp])]
  | none =>
    cases hu : matchGroup "data[USER][" kv.1 with
    | some n =>
      dsimp only []
      rw [if_neg (by simp [matchGroup_user_auth kv.1 n hu])]
    | none =>
      cases ha : matchGroup "auth[" kv.1 with
      | some n =>
        dsimp only []
        rw [lookupKV_insertKV]
        by_cases hx : n = x
        · subst hx
          rw [if_pos rfl, if_pos rfl]
        · rw [if_neg hx, if_neg (by simp [hx])]
      | none => rw [if_neg (by simp)]

theorem foldl_params_lookup (form : List (String × String)) :
    ∀ (env : Envelope) (x : String),
      lookupKV ((form.foldl foldFormEntry env).params) x =
        (match lastMatchVal "data[PARAMS][" form x with
         | some v => some v
         | none => lookupKV env.params x) := by
  induction form with
  | nil => intro env x; rfl
  | cons kv form ih =>
    intro env x
    rw [List.foldl_cons, ih, lastMatchVal]
    cases hl : lastMatchVal "data[PARAMS][" form x with
    | some v => rfl
    | none =>
      dsimp only []
      rw [foldFormEntry_params]
      by_cases hm : matchGroup "data[PARAMS][" kv.1 = some x
      · rw [if_pos hm, if_pos hm]
      · rw [if_neg hm, if_neg hm]

theorem foldl_user_lookup (form : List (String × String)) :
    ∀ (env : Envelope) (x : String),
      lookupKV ((form.foldl foldFormEntry env).user.getD []) x =
        (match lastMatchVal "data[USER][" form x with
         | some v => some v
         | none => lookupKV (env.user.getD []) x) := by
  induction form with
  | nil => intro env x; rfl
  | cons kv form ih =>
    intro env x
    rw [List.foldl_cons, ih, lastMatchVal]
    cases hl : lastMatchVal "data[USER][" form x with
    | some v => rfl
    | none =>
      dsimp only []
      rw [foldFormEntry_user]
      by_cases hm : matchGroup "data[USER][" kv.1 = some x
      · rw [if_pos hm, if_pos hm]
      · rw [if_neg hm, if_neg hm]

theorem foldl_auth_lookup (form : List (String × String)) :
    ∀ (env : Envelope) (x : String),
      lookupKV ((form.foldl foldFormEntry env).auth) x =
        (match lastMatchVal "auth[" form x with
         | some v => some v
         | none => lookupKV env.auth x) := by
  induction form with
  | nil => intro env x; rfl
  | cons kv form ih =>
    intro env x
    rw [List.foldl_cons, ih, lastMatchVal]
    cases hl : lastMatchVal "auth[" form x with
    | some v => rfl
    | none =>
      dsimp only []
      rw [foldFormEntry_auth]
      by_cases hm : matchGroup "auth[" kv.1 = some x
      · rw [if_pos hm, if_pos hm]
      · rw [if_neg hm, if_neg hm]

theorem lookupKV_append_ne {α : Type} (l1 l2 : List (String × α)) (k : String)
    (v : α) (x : String) (h : k ≠ x) :
    lookupKV (l1 ++ (k, v) :: l2) x = lookupKV (l1 ++ l2) x := by
  induction l1 with
  | nil => rw [List.nil_append, List.nil_append, lookupKV, if_neg h]
  | cons kv l1 ih =>
    rw [List.cons_append, List.cons_append, lookupKV, lookupKV, ih]

theorem foldFormEntry_nomatch (env : Envelope) (k v : String)
    (hp : matchGroup "data[PARAMS][" k = none)
    (hu : matchGroup "data[USER][" k = none)
    (ha : matchGroup "auth[" k = none) :
    foldFormEntry env (k, v) = env := by
  rw [foldFormEntry]
  simp only [hp, hu, ha]

/-- C7: the normalizer copies the event key to the event field of the
envelope; each section of the envelope holds, for each captured group, the
value of the last form entry whose key matches the corresponding bracket
pattern, preserved exactly; and an entry whose key matches none of the
three bracket patterns (and is not the event key) leaves the whole
envelope unchanged, so it is omitted. -/
theorem C7_event_normalizer :
    (∀ form : List (String × String),
      (parse_bitrix_form_data form).event = lookupKV form "event") ∧
    (∀ (form : List (String × String)) (x : String),
      lookupKV (parse_bitrix_form_data form).params x =
        lastMatchVal "data[PARAMS][" form x) ∧
    (∀ (form : List (String × String)) (x : String),
      lookupKV ((parse_bitrix_form_data form).user.getD []) x =
        lastMatchVal "data[USER][" form x) ∧
    (∀ (form : List (String × String)) (x : String),
      lookupKV (parse_bitrix_form_data form).auth x =
        lastMatchVal "auth[" form x) ∧
    (∀ (l1 l2 : List (String × String)) (k v : String),
      matchGroup "data[PARAMS][" k = none →
      matchGroup "data[USER][" k = none →
      matchGroup "auth[" k = none → k ≠ "event" →
      parse_bitrix_form_data (l1 ++ (k, v) :: l2) =
        parse_bitrix_form_data (l1 ++ l2)) := by
  refine ⟨?_, ?_, ?_, ?_, ?_⟩
  · intro form
    rw [parse_bitrix_form_data, foldl_foldFormEntry_event]
  · intro form x
    rw [parse_bitrix_form_data, foldl_params_lookup]
    cases lastMatchVal "data[PARAMS][" form x <;> rfl
  · intro form x
    rw [parse_bitrix_form_data, foldl_user_lookup]
    cases lastMatchVal "data[USER][" form x <;> rfl
  · intro form x
    rw [parse_bitrix_form_data, foldl_auth_lookup]
    cases lastMatchVal "auth[" form x <;> rfl
  · intro l1 l2 k v hp hu ha hk
    rw [parse_bitrix_form_data, parse_bitrix_form_data,
      lookupKV_append_ne l1 l2 k v "event" hk,
      List.foldl_append, List.foldl_append, List.foldl_cons,
      foldFormEntry_nomatch _ k v hp hu ha]

/-- Witness for C7 on a concrete form body: the params value is recovered
exactly, the junk key is dropped without affecting the envelope, and the
event is copied. -/
theorem C7_event_normalizer_witness :
    lookupKV (parse_bitrix_form_data formParams).params "DIALOG_ID" =
      some "123" ∧
    parse_bitrix_form_data
      ([("event", "ONIMBOTMESSAGEADD"),
        ("data[PARAMS][DIALOG_ID]", "123"),
        ("data[USER][NAME]", "Bob"),
        ("auth[domain]", "acme.bitrix24.ru")] ++ ("junkkey", "z") :: []) =
      parse_bitrix_form_data
        ([("event", "ONIMBOTMESSAGEADD"),
          ("data[PARAMS][DIALOG_ID]", "123"),
          ("data[USER][NAME]", "Bob"),
          ("auth[domain]", "acme.bitrix24.ru")] ++ []) ∧
    (parse_bitrix_form_data formParams).event =
      lookupKV formParams "event" := by
  refine ⟨(C7_event_normalizer.2.1 formParams "DIALOG_ID").trans (by decide),
    ?_, C7_event_normalizer.1 formParams⟩
  exact C7_event_normalizer.2.2.2.2
    [("event", "ONIMBOTMESSAGEADD"), ("data[PARAMS][DIALOG_ID]", "123"),
     ("data[USER][NAME]", "Bob"), ("auth[domain]", "acme.bitrix24.ru")]
    [] "junkkey" "z" (by decide) (by decide) (by decide) (by decide)

theorem length_insertSorted {α : Type} (le : α → α → Bool) (a : α)
    (l : List α) : (insertSorted le a l).length = l.length + 1 := by
  induction l with
  | nil => rfl
  | cons b l ih =>
    rw [insertSorted]
    by_cases h : le a b
    · rw [if_pos h]; rfl
    · rw [if_neg h, List.length_cons, ih, List.length_cons]

theorem length_sortBy {α : Type} (le : α → α → Bool) (l : List α) :
    (sortBy le l).length = l.length := by
  induction l with
  | nil => rfl
  | cons a l ih => rw [sortBy, length_insertSorted, ih, List.length_cons]

theorem str_join_length (l : List String) (h : l ≠ []) :
    (str_join "\n" l).length = (l.map String.length).sum + (l.length - 1) := by
  induction l with
  | nil => exact absurd rfl h
  | cons p l ih =>
    cases l with
    | nil => simp [str_join]
    | cons q l =>
      rw [str_join, String.length_append, String.length_append,
        ih (by simp)]
      simp only [List.map_cons, List.sum_cons, List.length_cons]
      have hnl : ("\n" : String).length = 1 := rfl
      rw [hnl]
      omega

theorem str_join_last (l : List String) (p : String) :
    ∃ y : List Char, (str_join "\n" (l ++ [p])).toList = y ++ p.toList := by
  induction l with
  | nil => exact ⟨[], rfl⟩
  | cons a l ih =>
    obtain ⟨y, hy⟩ := ih
    refine ⟨(a ++ "\n").toList ++ y, ?_⟩
    have hcons : (a :: l) ++ [p] = a :: (l ++ [p]) := rfl
    rw [hcons]
    cases hlp : l ++ [p] with
    | nil => exact absurd hlp (by simp)
    | cons b m =>
      rw [str_join, ← hlp]
      have h1 : (a ++ "\n" ++ str_join "\n" (l ++ [p])).toList =
          (a ++ "\n").toList ++ (str_join "\n" (l ++ [p])).toList := by
        simp [String.toList, String.data_append]
      rw [h1, hy, ← List.append_assoc]

theorem doc_text_last (d : RagDoc) :
    (doc_text d).toList.getLast? = some '\x0a' := by
  rw [doc_text]
  have h1 : ("[" ++ d.filename ++ "]\n" ++ d.content ++ "\n").toList =
      ("[" ++ d.filename ++ "]\n" ++ d.content).toList ++ ['\x0a'] := by
    simp [String.toList, String.data_append]
  rw [h1, List.getLast?_concat]

theorem endsWithEllipsis_append_dots (s : String) (y l : List Char)
    (h : s.toList = y ++ (l ++ ['.', '.', '.'])) :
    endsWithEllipsis s = true := by
  rw [endsWithEllipsis, h]
  have : (y ++ (l ++ ['.', '.', '.'])).reverse =
      ['.', '.', '.'] ++ (l.reverse ++ y.reverse) := by
    simp
  rw [this]
  rfl

theorem endsWithEllipsis_of_last_nl (s : String)
    (h : s.toList.getLast? = some '\x0a') :
    endsWithEllipsis s = false := by
  rw [endsWithEllipsis]
  rw [← List.head?_reverse] at h
  cases hr : s.toList.reverse with
  | nil => rw [hr] at h; simp at h
  | cons c t =>
    rw [hr] at h
    simp only [List.head?_cons, Option.some.injEq] at h
    subst h
    rfl

theorem length_mk_take_dots (cs : List Char) (n : Nat) :
    (String.mk (cs.take n) ++ "...").length = min n cs.length + 3 := by
  rw [String.length_append]
  have h1 : (String.mk (cs.take n)).length = (cs.take n).length := rfl
  rw [h1, List.length_take]
  rfl

theorem rag_loop_spec (max : Nat) :
    ∀ (docs : List RagDoc) (cur : Nat), cur ≤ max →
      ((((rag_loop max docs cur).1.map String.length).sum + cur ≤ max + 3) ∧
       (rag_loop max docs cur).1.length ≤ docs.length) ∧
      ((rag_loop max docs cur).2 = false →
        (((rag_loop max docs cur).1.map String.length).sum + cur ≤ max) ∧
        ∃ k, (rag_loop max docs cur).1 = (docs.take k).map doc_text ∧
          (∀ t, docs[k]? = some t →
            max < cur + ((docs.take k).map
              (fun d => (doc_text d).length)).sum + (doc_text t).length ∧
            max - (cur + ((docs.take k).map
              (fun d => (doc_text d).length)).sum) ≤ 100)) ∧
      ((rag_loop max docs cur).2 = true →
        ∃ k t, docs[k]? = some t ∧
          (rag_loop max docs cur).1 =
            (docs.take k).map doc_text ++
              [String.mk ((doc_text t).toList.take
                (max - (cur + ((docs.take k).map
                  (fun d => (doc_text d).length)).sum))) ++ "..."] ∧
          cur + ((docs.take k).map (fun d => (doc_text d).length)).sum ≤
            max ∧
          max < cur + ((docs.take k).map
            (fun d => (doc_text d).length)).sum + (doc_text t).length ∧
          100 < max - (cur + ((docs.take k).map
            (fun d => (doc_text d).length)).sum)) := by
  intro docs
  induction docs with
  | nil =>
    intro cur hc
    refine ⟨⟨by simp [rag_loop]; omega, by simp [rag_loop]⟩, ?_, ?_⟩
    · intro _
      refine ⟨by simp [rag_loop]; omega, 0, by simp [rag_loop], ?_⟩
      intro t ht
      simp at ht
    · intro hT
      simp [rag_loop] at hT
  | cons d rest ih =>
    intro cur hc
    by_cases hov : cur + (doc_text d).length > max
    · by_cases hrem : max - cur > 100
      · have hres : rag_loop max (d :: rest) cur =
            ([String.mk ((doc_text d).toList.take (max - cur)) ++ "..."],
             true) := by
          rw [rag_loop, if_pos hov, if_pos hrem]
        rw [hres]
        have hlen : ((String.mk ((doc_text d).toList.take (max - cur)) ++
            "...").length) = min (max - cur) (doc_text d).length + 3 := by
          rw [length_mk_take_dots]
          rfl
        have hlen2 : (doc_text d).length > max - cur := by omega
        refine ⟨⟨?_, by simp⟩, ?_, ?_⟩
        · simp only [List.map_cons, List.map_nil, List.sum_cons,
            List.sum_nil, hlen]
          omega
        · intro hF; simp at hF
        · intro _
          refine ⟨0, d, by simp, ?_, by simp; omega, by simp; omega,
            by simp; omega⟩
          simp only [List.take_zero, List.map_nil, List.sum_nil,
            Nat.add_zero, List.nil_append]
      · have hres : rag_loop max (d :: rest) cur = ([], false) := by
          rw [rag_loop, if_pos hov, if_neg hrem]
        rw [hres]
        refine ⟨⟨by simp; omega, by simp⟩, ?_, ?_⟩
        · intro _
          refine ⟨by simp; omega, 0, by simp, ?_⟩
          intro t ht
          simp only [List.getElem?_cons_zero, Option.some.injEq] at ht
          subst ht
          constructor
          · simp; omega
          · simp; omega
        · intro hT; simp at hT
    · have hres : rag_loop max (d :: rest) cur =
          (doc_text d :: (rag_loop max rest (cur + (doc_text d).length)).1,
           (rag_loop max rest (cur + (doc_text d).length)).2) := by
        rw [rag_loop, if_neg hov]
      rw [hres]
      obtain ⟨⟨ihsum, ihlen⟩, ihf, iht⟩ :=
        ih (cur + (doc_text d).length) (by omega)
      refine ⟨⟨?_, ?_⟩, ?_, ?_⟩
      · simp only [List.map_cons, List.sum_cons]
        omega
      · simp only [List.length_cons]
        omega
      · intro hF
        obtain ⟨hsum0, k, hparts, hcond⟩ := ihf hF
        refine ⟨?_, k + 1, ?_, ?_⟩
        · simp only [List.map_cons, List.sum_cons]
          omega
        · simp only [List.take_succ_cons, List.map_cons, hparts]
        · intro t ht
          simp only [List.getElem?_cons_succ] at ht
          obtain ⟨h1, h2⟩ := hcond t ht
          constructor
          · simp only [List.take_succ_cons, List.map_cons, List.sum_cons]
            omega
          · simp only [List.take_succ_cons, List.map_cons, List.sum_cons]
            omega
      · intro hT
        obtain ⟨k, t, ht, hparts, hle, hgt, hbud⟩ := iht hT
        refine ⟨k + 1, t, by simpa using ht, ?_, ?_, ?_, ?_⟩
        · simp only [List.take_succ_cons, List.map_cons, List.sum_cons,
            hparts, List.cons_append]
          have h2 : max - (cur + (doc_text d).length +
              ((rest.take k).map (fun d => (doc_text d).length)).sum) =
              max - (cur + ((doc_text d).length +
              ((rest.take k).map (fun d => (doc_text d).length)).sum)) := by
            omega
          rw [h2]
        · simp only [List.take_succ_cons, List.map_cons, List.sum_cons]
          omega
        · simp only [List.take_succ_cons, List.map_cons, List.sum_cons]
          omega
        · simp only [List.take_succ_cons, List.map_cons, List.sum_cons]
          omega

theorem get_rag_context_some (docs : List RagDoc) (max : Nat) (s : String)
    (h : get_rag_context docs max = some s) :
    (rag_loop max (get_rag_documents docs) 0).1 ≠ [] ∧
    s = str_join "\n" (rag_loop max (get_rag_documents docs) 0).1 := by
  rw [get_rag_context] at h
  dsimp only [] at h
  by_cases h1 : (get_rag_documents docs).isEmpty
  · rw [if_pos h1] at h
    exact absurd h (by simp)
  · rw [if_neg h1] at h
    by_cases h2 : (rag_loop max (get_rag_documents docs) 0).1.isEmpty
    · rw [if_pos h2] at h
      exact absurd h (by simp)
    · rw [if_neg h2] at h
      refine ⟨by simpa [List.isEmpty_iff] using h2, ?_⟩
      cases h
      rfl


/-- C3 amended: knowledge assembly walks the chunks ordered by filename
then chunk index, concatenating whole formatted chunks greedily until the
first whose addition would exceed the budget; that chunk is truncated to
the remaining budget with an ellipsis when more than 100 characters of
budget remain, else omitted with the loop stopped; the result is None when
the agent has no chunks; the result ends with an ellipsis exactly when a
truncation occurred; and the length never exceeds the budget plus 3 for
the ellipsis plus one joining newline per included part beyond the first,
bounded by the chunk count. -/
theorem C3_knowledge_assembly :
    ∀ (docs : List RagDoc) (max_length : Nat),
      (docs = [] → get_rag_context docs max_length = none) ∧
      (∀ s, get_rag_context docs max_length = some s →
        s.length ≤ max_length + 3 + (docs.length - 1)) ∧
      (∀ s, get_rag_context docs max_length = some s →
        (endsWithEllipsis s = true ↔
          (rag_loop max_length (get_rag_documents docs) 0).2 = true)) ∧
      ((rag_loop max_length (get_rag_documents docs) 0).2 = false →
        ∃ k, (rag_loop max_length (get_rag_documents docs) 0).1 =
            ((get_rag_documents docs).take k).map doc_text ∧
          (∀ t, (get_rag_documents docs)[k]? = some t →
            max_length < (((get_rag_documents docs).take k).map
              (fun d => (doc_text d).length)).sum + (doc_text t).length ∧
            max_length - (((get_rag_documents docs).take k).map
              (fun d => (doc_text d).length)).sum ≤ 100)) ∧
      ((rag_loop max_length (get_rag_documents docs) 0).2 = true →
        ∃ k t, (get_rag_documents docs)[k]? = some t ∧
          (rag_loop max_length (get_rag_documents docs) 0).1 =
            ((get_rag_documents docs).take k).map doc_text ++
              [String.mk ((doc_text t).toList.take
                (max_length - (((get_rag_documents docs).take k).map
                  (fun d => (doc_text d).length)).sum)) ++ "..."] ∧
          (((get_rag_documents docs).take k).map
            (fun d => (doc_text d).length)).sum ≤ max_length ∧
          max_length < (((get_rag_documents docs).take k).map
            (fun d => (doc_text d).length)).sum + (doc_text t).length ∧
          100 < max_length - (((get_rag_documents docs).take k).map
            (fun d => (doc_text d).length)).sum) := by
  intro docs max_length
  obtain ⟨⟨hsum3, hcount⟩, hF, hT⟩ :=
    rag_loop_spec max_length (get_rag_documents docs) 0 (Nat.zero_le _)
  refine ⟨?_, ?_, ?_, ?_, ?_⟩
  · intro h
    subst h
    rfl
  · intro s hs
    obtain ⟨hne, hjoin⟩ := get_rag_context_some docs max_length s hs
    rw [hjoin, str_join_length _ hne]
    have h2 : (get_rag_documents docs).length = docs.length := by
      rw [get_rag_documents]
      exact length_sortBy ragLe docs
    omega
  · intro s hs
    obtain ⟨hne, hjoin⟩ := get_rag_context_some docs max_length s hs
    cases hflag : (rag_loop max_length (get_rag_documents docs) 0).2 with
    | true =>
      obtain ⟨k, t, ht, hparts, _, _, _⟩ := hT hflag
      simp only [iff_true]
      rw [hjoin, hparts]
      obtain ⟨y, hy⟩ := str_join_last
        (((get_rag_documents docs).take k).map doc_text)
        (String.mk ((doc_text t).toList.take
          (max_length - (0 + (((get_rag_documents docs).take k).map
            (fun d => (doc_text d).length)).sum))) ++ "...")
      have hdd : ("..." : String).toList = ['.', '.', '.'] := rfl
      have hdots : ((String.mk ((doc_text t).toList.take
          (max_length - (0 + (((get_rag_documents docs).take k).map
            (fun d => (doc_text d).length)).sum))) ++ "...")).toList =
          ((doc_text t).toList.take
            (max_length - (0 + (((get_rag_documents docs).take k).map
              (fun d => (doc_text d).length)).sum))) ++ ['.', '.', '.'] := by
        rw [← hdd]
        simp [String.toList, String.data_append]
      rw [hdots] at hy
      exact endsWithEllipsis_append_dots _ y _ hy
    | false =>
      obtain ⟨_, k, hparts, _⟩ := hF hflag
      simp only [Bool.false_eq_true, iff_false, Bool.not_eq_true]
      have hmem : (rag_loop max_length (get_rag_documents docs) 0).1.getLast
          hne ∈ ((get_rag_documents docs).take k).map doc_text := by
        rw [← hparts]
        exact List.getLast_mem hne
      obtain ⟨d, _, hd⟩ := List.mem_map.mp hmem
      have hdecomp := List.dropLast_append_getLast hne
      have hnn : (doc_text d).toList ≠ [] := by
        intro hnil
        have := doc_text_last d
        rw [hnil] at this
        simp at this
      obtain ⟨y, hy⟩ := str_join_last
        ((rag_loop max_length (get_rag_documents docs) 0).1.dropLast)
        ((rag_loop max_length (get_rag_documents docs) 0).1.getLast hne)
      rw [hdecomp] at hy
      apply endsWithEllipsis_of_last_nl
      rw [hjoin, hy, ← hd, List.getLast?_append_of_ne_nil _ hnn]
      exact doc_text_last d
  · intro hfl
    obtain ⟨_, k, hparts, hcond⟩ := hF hfl
    refine ⟨k, hparts, ?_⟩
    intro t ht
    obtain ⟨h1, h2⟩ := hcond t ht
    exact ⟨by omega, by omega⟩
  · intro hfl
    obtain ⟨k, t, ht, hparts, hle, hgt, hbud⟩ := hT hfl
    have h0 : max_length - (0 + (((get_rag_documents docs).take k).map
        (fun d => (doc_text d).length)).sum) =
        max_length - (((get_rag_documents docs).take k).map
          (fun d => (doc_text d).length)).sum := by
      omega
    rw [h0] at hparts
    exact ⟨k, t, ht, hparts, by omega, by omega, by omega⟩

/-- Counterexample for C3 as stated: twenty-one five-character chunks on a
budget of 100 assemble to 119 characters, because the newline separators
of the join are not counted against the budget; 119 exceeds the budget
plus the five-character per-chunk formatting overhead plus the
three-character ellipsis. -/
theorem C3_knowledge_assembly_counterexample :
    (get_rag_context ragDocs21 100).map String.length = some 119 ∧
    (doc_text (⟨"f", "", 0⟩ : RagDoc)).length = 5 ∧
    100 + 5 + 3 < 119 := by
  refine ⟨by decide, by decide, by decide⟩

/-- Witness for C3 amended at the concrete chunk list: the assembled
length obeys the separator-aware bound. -/
theorem C3_knowledge_assembly_witness :
    ((get_rag_context ragDocs21 100).getD "").length ≤
      100 + 3 + (ragDocs21.length - 1) :=
  (C3_knowledge_assembly ragDocs21 100).2.1
    ((get_rag_context ragDocs21 100).getD "") (by decide)
